import Mathlib

/-!
A shallow embedding of the provider bonding/registration orchestrator of
`src/provider-core/admin_api.py` — the `/api/bond-mod-provider` endpoint
(`bond_and_mod_provider`) and its helpers (`derive_pubkeys`, the numeric
service-id resolution, the account-sequence fetch loops and the
sequence-mismatch recovery) — together with theorems settling the frozen
claims about it.

Modelling conventions:
* Python values decoded from JSON are modelled by `PyVal` (JSON numerals are
  restricted to integers).  `json.loads` is a library call on text produced by
  an external process, so the environment oracle supplies, next to the exit
  code and raw output of each external command, the result of parsing that
  output (`none` models a raised `json.JSONDecodeError`).
* External commands (the `run_list` helper) are modelled by an oracle
  `ChainEnv`; queries that the code may issue several times in one request
  (the account query, the mod-provider transaction) are indexed by invocation
  count, so consecutive invocations may observe different external state.
* An exception the Python code does not catch (for example the
  `AttributeError` raised by calling `.get` on a non-dict, or by `.strip()` on
  a non-string) is modelled by `PyResult.exn`; Flask then answers such a
  request with its bare "Internal Server Error" page, which carries none of
  the accumulated context.
* `time.sleep` calls are recorded in the trace as events.
* Module-level constants read from the process environment at import time
  (`ARKEOD_HOME`, `KEY_NAME`, `KEYRING`, `ARKEOD_NODE`, `CHAIN_ID` and the
  request defaults) are gathered in `AppConfig`.
-/

/-- A Python value as returned by `json.loads` (numerals restricted to
integers; object fields model a parsed `dict`, so keys are assumed unique). -/
inductive PyVal where
  | null
  | bool (b : Bool)
  | num (n : Int)
  | str (s : String)
  | arr (items : List PyVal)
  | obj (fields : List (String × PyVal))

/-- Python truthiness of a decoded JSON value (`bool(v)`). -/
def truthy : PyVal → Bool
  | PyVal.null => false
  | PyVal.bool b => b
  | PyVal.num n => n ≠ 0
  | PyVal.str s => s ≠ ""
  | PyVal.arr items => !items.isEmpty
  | PyVal.obj fields => !fields.isEmpty

/-- Python `a or b` on decoded values. -/
def pyOr (a b : PyVal) : PyVal := if truthy a then a else b

/-- Lookup of a key in a parsed dict's field list. -/
def jfind : List (String × PyVal) → String → Option PyVal
  | [], _ => none
  | (k, v) :: t, key => if k = key then some v else jfind t key

/-- Python `d.get(k)` on a parsed dict: a missing key and a stored JSON
`null` both come back as Python `None`. -/
def pyGet (fields : List (String × PyVal)) (key : String) : PyVal :=
  match jfind fields key with
  | some v => v
  | none => PyVal.null

/-- Python `d.get(k, default)` on a parsed dict: the default is used only
when the key is absent. -/
def pyGetD (fields : List (String × PyVal)) (key : String) (dflt : PyVal) : PyVal :=
  match jfind fields key with
  | some v => v
  | none => dflt

/-- Single-quote wrapping used by `pyRepr` for strings (Python `repr`,
without replicating escape sequences). -/
def pyQuote (s : String) : String :=
  String.singleton (Char.ofNat 39) ++ s ++ String.singleton (Char.ofNat 39)

mutual

/-- Python `repr` of a decoded JSON value (string escaping not replicated;
no claim evaluates it on a string needing escapes). -/
def pyRepr : PyVal → String
  | PyVal.null => "None"
  | PyVal.bool true => "True"
  | PyVal.bool false => "False"
  | PyVal.num n => toString n
  | PyVal.str s => pyQuote s
  | PyVal.arr items => "[" ++ pyReprItems items ++ "]"
  | PyVal.obj fields => "\x7b" ++ pyReprFields fields ++ "\x7d"

/-- Comma-joined `repr` of list items. -/
def pyReprItems : List PyVal → String
  | [] => ""
  | [x] => pyRepr x
  | x :: y :: t => pyRepr x ++ ", " ++ pyReprItems (y :: t)

/-- Comma-joined `repr` of dict fields. -/
def pyReprFields : List (String × PyVal) → String
  | [] => ""
  | [(k, v)] => pyQuote k ++ ": " ++ pyRepr v
  | (k, v) :: f :: t => pyQuote k ++ ": " ++ pyRepr v ++ ", " ++ pyReprFields (f :: t)

end

/-- Python `str` of a decoded JSON value. -/
def pyStr : PyVal → String
  | PyVal.str s => s
  | v => pyRepr v

/-- ASCII whitespace, Python's `str.strip` / `\s` character class (the
unicode extensions are not modelled). -/
def pyIsSpace (c : Char) : Bool :=
  c = ' ' || c = '\t' || c = '\n' || c = '\r' || c = '\x0b' || c = '\x0c'

/-- Python `str.strip()` (ASCII whitespace). -/
def pyStrip (s : String) : String :=
  String.mk (((s.toList.dropWhile pyIsSpace).reverse.dropWhile pyIsSpace).reverse)

/-- Python `str.isdigit()` restricted to ASCII: nonempty and all decimal
digits. -/
def pyIsDigitStr (s : String) : Bool :=
  s ≠ "" && s.toList.all Char.isDigit

/-- Whether the first list is a prefix of the second. -/
def isPre : List Char → List Char → Bool
  | [], _ => true
  | _ :: _, [] => false
  | c :: p, h :: t => c = h && isPre p t

/-- Whether `pat` occurs as a contiguous substring of `hay`. -/
def hasSub : List Char → List Char → Bool
  | [], pat => isPre pat []
  | c :: t, pat => isPre pat (c :: t) || hasSub t pat

/-- Python `pat in hay` on strings. -/
def strContains (hay pat : String) : Bool := hasSub hay.toList pat.toList

/-- Helper for the `expected\s+(\d+)` pattern: at the current position, a
nonempty whitespace run followed by a nonempty (maximal) digit run. -/
def wsDigits (l : List Char) : Option String :=
  let ws := l.takeWhile pyIsSpace
  if ws.isEmpty then none
  else
    let ds := (l.dropWhile pyIsSpace).takeWhile Char.isDigit
    if ds.isEmpty then none else some (String.mk ds)

/-- Leftmost match of `re.search(r"expected\s+(\d+)", ·)`, returning the
captured digit run. -/
def searchExpectedAux : List Char → Option String
  | [] => none
  | l@(_ :: t) =>
    if isPre "expected".toList l then
      match wsDigits (l.drop 8) with
      | some d => some d
      | none => searchExpectedAux t
    else searchExpectedAux t

/-- `re.search(r"expected\s+(\d+)", s)`, returning the captured group. -/
def searchExpected (s : String) : Option String := searchExpectedAux s.toList

/-- Splitting a character list on newline characters (left-to-right, the
piece after a trailing newline kept). -/
def splitNlAux : List Char → List Char → List String
  | [], acc => [String.mk acc.reverse]
  | c :: t, acc =>
    if c = '\n' then String.mk acc.reverse :: splitNlAux t []
    else splitNlAux t (c :: acc)

/-- Python `str.splitlines()` (modelled as splitting on `'\n'`; the extra
empty piece after a trailing newline is harmless to every use, which only
scans lines for a prefix). -/
def pyLines (s : String) : List String := splitNlAux s.toList []

/-- Whether `pre` is a prefix of `s` (Python `str.startswith`). -/
def strStartsWith (s pre : String) : Bool := isPre pre.toList s.toList

/-- Replace every non-overlapping occurrence of `pat`, leftmost first
(Python `str.replace`; `pat` is never empty at the use sites).  The fuel
argument, instantiated with the haystack's length, keeps the recursion
structural: every step consumes at least one character. -/
def pyReplaceFuel (pat repl : List Char) : Nat → List Char → List Char
  | 0, l => l
  | _ + 1, [] => []
  | fuel + 1, c :: t =>
    if pat ≠ [] && isPre pat (c :: t) then
      repl ++ pyReplaceFuel pat repl fuel ((c :: t).drop pat.length)
    else c :: pyReplaceFuel pat repl fuel t

/-- Python `s.replace(pat, repl)`. -/
def pyReplace (s pat repl : String) : String :=
  String.mk (pyReplaceFuel pat.toList repl.toList s.toList.length s.toList)

/-- Result of one external command: exit code, raw combined output, and the
outcome of `json.loads` on that output (`none` = `json.JSONDecodeError`). -/
structure ExecOut where
  code : Int
  out : String
  js : Option PyVal

/-- The oracle for every external command the endpoint may run.  Calls the
code can repeat in one request are indexed by invocation count. -/
structure ChainEnv where
  keysShow : ExecOut
  pubkeyRaw : ExecOut
  allServices : ExecOut
  providerLookup : ExecOut
  bondTx : ExecOut
  acctQuery : Nat → ExecOut
  modTx : Nat → ExecOut

/-- Module-level configuration derived from the process environment when
the module loads. -/
structure AppConfig where
  arkeodHome : String
  keyName : String
  keyring : String
  arkeodNode : String
  chainId : String
  sentinelUriDefault : String
  metadataNonceDefault : String
  bondDefault : String
  feesDefault : String

/-- The JSON request body, projected to the keys the endpoint reads
(`payload.get(k)`; `PyVal.null` models an absent key). -/
structure Payload where
  service : PyVal
  bond : PyVal
  sentinel_uri : PyVal
  metadata_nonce : PyVal
  status : PyVal
  min_contract_dur : PyVal
  max_contract_dur : PyVal
  subscription_rates : PyVal
  pay_as_you_go_rates : PyVal
  settlement_dur : PyVal

/-- Outcome of a Python computation: a value, or an exception the code does
not catch. -/
inductive PyResult (α : Type) where
  | ok (val : α)
  | exn

/-- One externally observable step of the request. -/
inductive TraceEvent where
  | keysShow (cmd : List String)
  | pubkeyRawCall (cmd : List String)
  | servicesQuery (cmd : List String)
  | providerLookup (cmd : List String)
  | bondSubmit (cmd : List String)
  | acctQuery (cmd : List String)
  | modSubmit (cmd : List String)
  | sleep (secs : Nat)
deriving DecidableEq

/-- The `inputs` dict of the mod-provider failure and success responses. -/
structure ModInputs where
  service : PyVal
  resolved_service : PyVal
  sentinel_uri : PyVal
  metadata_nonce : String
  status : String
  min_contract_dur : String
  max_contract_dur : String
  subscription_rates : PyVal
  pay_as_you_go_rates : PyVal
  settlement_dur : String
  bond : String
  keyring_backend : String
  fees : String

/-- The endpoint's response, one constructor per return site.
`internalError` is Flask's bare 500 page for an uncaught exception. -/
inductive BMResult where
  | missingService
  | internalError
  | pubkeyError (err raw b32 : String)
  | bondFailed (detail : String) (cmd : List String) (service resolved : PyVal)
      (note bond kb fees raw b32 : String)
  | modFailed (detail : String) (cmd : List String) (inputs : ModInputs)
      (raw b32 : String) (bondCode : Int) (bondOut : String)
  | success (inputs : ModInputs) (note raw b32 : String)
      (bondCmd : Option (List String)) (modCmd : List String)
      (bondCode : Int) (bondOut : String) (modCode : Int) (modOut : String)

/-- `NODE_ARGS`. -/
def nodeArgs (cfg : AppConfig) : List String :=
  if cfg.arkeodNode ≠ "" then ["--node", cfg.arkeodNode] else []

/-- `CHAIN_ARGS`. -/
def chainArgs (cfg : AppConfig) : List String :=
  if cfg.chainId ≠ "" then ["--chain-id", cfg.chainId] else []

/-- `bond = str(payload.get("bond") or BOND_DEFAULT)`. -/
def bondVal (cfg : AppConfig) (p : Payload) : String :=
  pyStr (pyOr p.bond (PyVal.str cfg.bondDefault))

/-- `sentinel_uri = payload.get("sentinel_uri") or SENTINEL_URI_DEFAULT`
(no `str()` applied in the source). -/
def sentinelUriVal (cfg : AppConfig) (p : Payload) : PyVal :=
  pyOr p.sentinel_uri (PyVal.str cfg.sentinelUriDefault)

/-- `metadata_nonce = str(payload.get("metadata_nonce") or METADATA_NONCE_DEFAULT)`. -/
def nonceVal (cfg : AppConfig) (p : Payload) : String :=
  pyStr (pyOr p.metadata_nonce (PyVal.str cfg.metadataNonceDefault))

/-- `status = str(payload.get("status") or "1")`. -/
def statusVal (p : Payload) : String := pyStr (pyOr p.status (PyVal.str "1"))

/-- `min_contract_dur = str(payload.get("min_contract_dur") or "5")`. -/
def minDurVal (p : Payload) : String := pyStr (pyOr p.min_contract_dur (PyVal.str "5"))

/-- `max_contract_dur = str(payload.get("max_contract_dur") or "432000")`. -/
def maxDurVal (p : Payload) : String := pyStr (pyOr p.max_contract_dur (PyVal.str "432000"))

/-- `subscription_rates = payload.get("subscription_rates") or "200uarkeo"`
(no `str()` applied in the source). -/
def subRatesVal (p : Payload) : PyVal := pyOr p.subscription_rates (PyVal.str "200uarkeo")

/-- `pay_as_you_go_rates = payload.get("pay_as_you_go_rates") or "200uarkeo"`
(no `str()` applied in the source). -/
def payRatesVal (p : Payload) : PyVal := pyOr p.pay_as_you_go_rates (PyVal.str "200uarkeo")

/-- `settlement_dur = str(payload.get("settlement_dur") or "1000")`. -/
def settleVal (p : Payload) : String := pyStr (pyOr p.settlement_dur (PyVal.str "1000"))

/-- The `inputs` dict reported by the mod-provider failure and success
responses. -/
def theInputs (cfg : AppConfig) (p : Payload) (resolved : PyVal) : ModInputs :=
  ⟨p.service, resolved, sentinelUriVal cfg p, nonceVal cfg p, statusVal p,
   minDurVal p, maxDurVal p, subRatesVal p, payRatesVal p, settleVal p,
   bondVal cfg p, cfg.keyring, cfg.feesDefault⟩

/-- A command list as the Python code builds it: mostly string literals, but
a few positions hold request- or catalog-derived values that may be
arbitrary decoded JSON. -/
def toCmd? : List PyVal → Option (List String)
  | [] => some []
  | PyVal.str s :: t =>
    match toCmd? t with
    | some r => some (s :: r)
    | none => none
  | _ :: _ => none

/-- Index of the first element equal (under Python `==`) to the string
`"--from"`; the list length when absent (the `except ValueError` branch of
`run_mod_with_sequence`). -/
def fromIdx : List PyVal → Nat
  | [] => 0
  | PyVal.str s :: t => if s = "--from" then 0 else fromIdx t + 1
  | _ :: t => fromIdx t + 1

/-- `cmd[insert_at:insert_at] = seq_arg` with `insert_at = cmd.index("--from")`
(falling back to the length). -/
def insertBeforeFrom (cmd : List PyVal) (seqArg : List String) : List PyVal :=
  cmd.take (fromIdx cmd) ++ seqArg.map PyVal.str ++ cmd.drop (fromIdx cmd)

/-- The `arkeod keys show <user> -p` command of `derive_pubkeys`. -/
def pubkeyCmd (cfg : AppConfig) (user kb : String) : List String :=
  ["arkeod", "--home", cfg.arkeodHome, "keys", "show", user, "-p",
   "--keyring-backend", kb]

/-- The `arkeod debug pubkey-raw` command of `derive_pubkeys`. -/
def bech32Cmd (raw : String) : List String := ["arkeod", "debug", "pubkey-raw", raw]

/-- `raw_pubkey = json.loads(pubkey_out).get("key", "").strip()` guarded by
`except json.JSONDecodeError` only: `PyResult.exn` models the uncaught
`AttributeError` when the output parses to valid non-dict JSON, or to a
dict whose `"key"` value is not a string. -/
def parseRawKey : Option PyVal → PyResult String
  | none => PyResult.ok ""
  | some (PyVal.obj fields) =>
    match pyGetD fields "key" (PyVal.str "") with
    | PyVal.str s => PyResult.ok (pyStrip s)
    | _ => PyResult.exn
  | some _ => PyResult.exn

/-- The scan of the conversion output for the first `Bech32 Acc:` line
(empty when no line carries the prefix, or stripping leaves nothing). -/
def extractBech32 (out : String) : String :=
  match (pyLines out).find? (fun l => strStartsWith l "Bech32 Acc:") with
  | some l => pyStrip (pyReplace l "Bech32 Acc:" "")
  | none => ""

/-- `derive_pubkeys`: returns `(raw_pubkey, bech32_pubkey, error)`, or the
uncaught exception from `parseRawKey`. -/
def derive_pubkeys (cfg : AppConfig) (env : ChainEnv) (user kb : String) :
    PyResult (String × String × Option String) × List TraceEvent :=
  if env.keysShow.code ≠ 0 then
    (PyResult.ok ("", "", some ("failed to fetch raw pubkey: " ++ env.keysShow.out)),
     [TraceEvent.keysShow (pubkeyCmd cfg user kb)])
  else
    match parseRawKey env.keysShow.js with
    | PyResult.exn => (PyResult.exn, [TraceEvent.keysShow (pubkeyCmd cfg user kb)])
    | PyResult.ok raw =>
      if raw = "" then
        (PyResult.ok ("", "", some ("could not parse raw pubkey: " ++ env.keysShow.out)),
         [TraceEvent.keysShow (pubkeyCmd cfg user kb)])
      else
        if env.pubkeyRaw.code ≠ 0 then
          (PyResult.ok (raw, "", some ("failed to convert pubkey: " ++ env.pubkeyRaw.out)),
           [TraceEvent.keysShow (pubkeyCmd cfg user kb),
            TraceEvent.pubkeyRawCall (bech32Cmd raw)])
        else
          if extractBech32 env.pubkeyRaw.out = "" then
            (PyResult.ok (raw, "", some ("Bech32 pubkey not found: " ++ env.pubkeyRaw.out)),
             [TraceEvent.keysShow (pubkeyCmd cfg user kb),
              TraceEvent.pubkeyRawCall (bech32Cmd raw)])
          else
            (PyResult.ok (raw, extractBech32 env.pubkeyRaw.out, none),
             [TraceEvent.keysShow (pubkeyCmd cfg user kb),
              TraceEvent.pubkeyRawCall (bech32Cmd raw)])

/-- The `arkeod query arkeo all-services -o json` command. -/
def svcAllCmd (cfg : AppConfig) : List String :=
  ["arkeod", "--home", cfg.arkeodHome] ++ nodeArgs cfg ++
    ["query", "arkeo", "all-services", "-o", "json"]

/-- The scan of the catalog entries inside `_lookup_service_name_by_id`. -/
def scanServices : List PyVal → String → Option PyVal
  | [], _ => none
  | item :: t, sid =>
    match item with
    | PyVal.obj fields =>
      let sidVal := pyStr (pyOr (pyGet fields "id")
        (pyOr (pyGet fields "service_id") (pyOr (pyGet fields "serviceID") (PyVal.str ""))))
      if sidVal = sid then
        some (pyOr (pyGet fields "service") (pyOr (pyGet fields "name") (PyVal.str sid)))
      else scanServices t sid
    | _ => scanServices t sid

/-- The shape-tolerant extraction of the service list from a parsed
catalog response (`data.get("services") or data.get("service") or
data.get("result") or []`, one more unwrap when that is itself a dict,
then `... if isinstance(services, list) else []`). -/
def extractServicesList (fields : List (String × PyVal)) : List PyVal :=
  match
    (match pyOr (pyGet fields "services")
        (pyOr (pyGet fields "service") (pyOr (pyGet fields "result") (PyVal.arr []))) with
     | PyVal.obj gs => pyOr (pyGet gs "services") (pyOr (pyGet gs "service") (PyVal.arr []))
     | s => s)
  with
  | PyVal.arr xs => xs
  | _ => []

/-- `_lookup_service_name_by_id`: `PyResult.exn` models the uncaught
`AttributeError` when the catalog output parses to valid non-dict JSON
(`data.get` sits outside the `try` that only catches `json.JSONDecodeError`). -/
def lookup_service_name_by_id (cfg : AppConfig) (env : ChainEnv) (sid : String) :
    PyResult (Option PyVal) × List TraceEvent :=
  if env.allServices.code ≠ 0 then
    (PyResult.ok none, [TraceEvent.servicesQuery (svcAllCmd cfg)])
  else
    match env.allServices.js with
    | none => (PyResult.ok none, [TraceEvent.servicesQuery (svcAllCmd cfg)])
    | some (PyVal.obj fields) =>
      (PyResult.ok (scanServices (extractServicesList fields) sid),
       [TraceEvent.servicesQuery (svcAllCmd cfg)])
    | some _ => (PyResult.exn, [TraceEvent.servicesQuery (svcAllCmd cfg)])

/-- The numeric-id resolution block of `bond_and_mod_provider` (lines
337–367): for a string whose stripped form is all digits, look the id up in
the catalog; otherwise pass the reference through untouched. -/
def resolveServiceStage (cfg : AppConfig) (env : ChainEnv) (service : PyVal) :
    PyResult (PyVal × String) × List TraceEvent :=
  match service with
  | PyVal.str s =>
    if pyIsDigitStr (pyStrip s) then
      match lookup_service_name_by_id cfg env (pyStrip s) with
      | (PyResult.exn, evs) => (PyResult.exn, evs)
      | (PyResult.ok (some v), evs) =>
        if truthy v then (PyResult.ok (v, ""), evs)
        else
          (PyResult.ok (PyVal.str s, "could not resolve service id " ++ pyStrip s ++ " to name"),
           evs)
      | (PyResult.ok none, evs) =>
        (PyResult.ok (PyVal.str s, "could not resolve service id " ++ pyStrip s ++ " to name"),
         evs)
    else (PyResult.ok (PyVal.str s, ""), [])
  | v => (PyResult.ok (v, ""), [])

/-- The `arkeod query auth account` command of the sequence fetch. -/
def acctCmd (cfg : AppConfig) (b32 : String) : List String :=
  ["arkeod", "--home", cfg.arkeodHome, "query", "auth", "account", b32, "-o", "json"]
    ++ nodeArgs cfg

/-- The nested extraction of `sequence` from one parsed account query
(`acct.get("account") or acct.get("result") or {}`, then
`account_info.get("value") or account_info`, then `.get("sequence")`). -/
def extractSeq (acct : PyVal) : Option PyVal :=
  match acct with
  | PyVal.obj fs =>
    let accountInfo := pyOr (pyGet fs "account") (pyOr (pyGet fs "result") (PyVal.obj []))
    match accountInfo with
    | PyVal.obj gs =>
      let v := pyOr (pyGet gs "value") accountInfo
      match v with
      | PyVal.obj hs =>
        match pyGet hs "sequence" with
        | PyVal.null => none
        | sv => some sv
      | _ => none
    | _ => none
  | _ => none

/-- One iteration body of the sequence-fetch loops: the account query and
extraction, with all exceptions swallowed by the `except Exception` catch. -/
def fetchSeqOnce (env : ChainEnv) (i : Nat) : Option PyVal :=
  if (env.acctQuery i).code = 0 then
    match (env.acctQuery i).js with
    | none => none
    | some acct => extractSeq acct
  else none

/-- The bounded retry loop around the account query (`for _ in range(n)`),
indexing successive invocations from `i`; returns the stringified sequence
(if any), the next invocation index, and the trace. -/
def seqFetchLoop (cfg : AppConfig) (env : ChainEnv) (b32 : String) :
    Nat → Nat → Option String × Nat × List TraceEvent
  | i, 0 => (none, i, [])
  | i, fuel + 1 =>
    match fetchSeqOnce env i with
    | some v => (some (pyStr v), i + 1, [TraceEvent.acctQuery (acctCmd cfg b32)])
    | none =>
      ((seqFetchLoop cfg env b32 (i + 1) fuel).1,
       (seqFetchLoop cfg env b32 (i + 1) fuel).2.1,
       TraceEvent.acctQuery (acctCmd cfg b32) :: TraceEvent.sleep 1 ::
         (seqFetchLoop cfg env b32 (i + 1) fuel).2.2)

/-- The provider point-lookup command (`arkeod query arkeo provider`). -/
def provider_lookup_cmd (cfg : AppConfig) (b32 : String) (resolved : PyVal) : List PyVal :=
  ([PyVal.str "arkeod", PyVal.str "--home", PyVal.str cfg.arkeodHome,
    PyVal.str "query", PyVal.str "arkeo", PyVal.str "provider",
    PyVal.str b32, resolved, PyVal.str "-o", PyVal.str "json"])
    ++ (nodeArgs cfg).map PyVal.str

/-- The bond-provider transaction command. -/
def bond_cmd (cfg : AppConfig) (p : Payload) (b32 : String) (resolved : PyVal) : List PyVal :=
  ([PyVal.str "arkeod", PyVal.str "--home", PyVal.str cfg.arkeodHome,
    PyVal.str "tx", PyVal.str "arkeo", PyVal.str "bond-provider",
    PyVal.str b32, resolved, PyVal.str (bondVal cfg p)])
    ++ (nodeArgs cfg).map PyVal.str ++ (chainArgs cfg).map PyVal.str
    ++ [PyVal.str "--from", PyVal.str cfg.keyName, PyVal.str "--fees",
        PyVal.str cfg.feesDefault, PyVal.str "--keyring-backend",
        PyVal.str cfg.keyring, PyVal.str "-y"]

/-- `mod_cmd_base`: the mod-provider transaction command before any
`--sequence` insertion. -/
def mod_cmd_base (cfg : AppConfig) (p : Payload) (b32 : String) (resolved : PyVal) : List PyVal :=
  ([PyVal.str "arkeod", PyVal.str "--home", PyVal.str cfg.arkeodHome,
    PyVal.str "tx", PyVal.str "arkeo", PyVal.str "mod-provider",
    PyVal.str b32, resolved, sentinelUriVal cfg p, PyVal.str (nonceVal cfg p),
    PyVal.str (statusVal p), PyVal.str (minDurVal p), PyVal.str (maxDurVal p),
    subRatesVal p, payRatesVal p, PyVal.str (settleVal p)])
    ++ (nodeArgs cfg).map PyVal.str ++ (chainArgs cfg).map PyVal.str
    ++ [PyVal.str "--from", PyVal.str cfg.keyName, PyVal.str "--fees",
        PyVal.str cfg.feesDefault, PyVal.str "--keyring-backend",
        PyVal.str cfg.keyring, PyVal.str "-y"]

/-- `run_mod_with_sequence`: insert the sequence flags just before
`"--from"` and submit; `k` is the invocation index, and `PyResult.exn`
models the `TypeError` raised by `subprocess` when the command list holds a
non-string element. -/
def run_mod_with_sequence (env : ChainEnv) (base : List PyVal) (k : Nat)
    (seqArg : List String) : PyResult (List String × Int × String) × List TraceEvent :=
  match toCmd? (insertBeforeFrom base seqArg) with
  | none => (PyResult.exn, [])
  | some cmd =>
    (PyResult.ok (cmd, (env.modTx k).code, (env.modTx k).out), [TraceEvent.modSubmit cmd])

/-- The `--sequence` flag pair built from a fetched sequence (empty when
none was obtained). -/
def seqArgOf : Option String → List String
  | some s => ["--sequence", s]
  | none => []

/-- The recovery sequence of the mismatch branch: first the
`expected\s+(\d+)` extraction from the failing output, else up to two fresh
account queries (indexed from `nextIdx`). -/
def recoverSeq (cfg : AppConfig) (env : ChainEnv) (b32 : String) (mout : String)
    (nextIdx : Nat) : List String × List TraceEvent :=
  match searchExpected mout with
  | some d => (["--sequence", d], [])
  | none =>
    (seqArgOf (seqFetchLoop cfg env b32 nextIdx 2).1,
     (seqFetchLoop cfg env b32 nextIdx 2).2.2)

/-- The final branch on `mod_code` (lines 551–604): the mod-provider failure
response or the composite success response. -/
def finalizeMod (cfg : AppConfig) (p : Payload) (resolved : PyVal)
    (note raw b32 : String) (bondCmd : Option (List String)) (bondCode : Int)
    (bondOut : String) (mcmd : List String) (mcode : Int) (mout : String) : BMResult :=
  if mcode ≠ 0 then
    BMResult.modFailed mout mcmd (theInputs cfg p resolved) raw b32 bondCode bondOut
  else
    BMResult.success (theInputs cfg p resolved) note raw b32 bondCmd mcmd
      bondCode bondOut mcode mout

/-- The mod-provider submission with the single mismatch-recovery retry
(lines 516–604). -/
def modSubmitAndRecover (cfg : AppConfig) (env : ChainEnv) (p : Payload)
    (resolved : PyVal) (note raw b32 : String) (bondCmd : Option (List String))
    (bondCode : Int) (bondOut : String) (base : List PyVal) (seqArg : List String)
    (nextIdx : Nat) : BMResult × List TraceEvent :=
  match run_mod_with_sequence env base 0 seqArg with
  | (PyResult.exn, evs) => (BMResult.internalError, evs)
  | (PyResult.ok (mcmd, mcode, mout), evs) =>
    if strContains mout "account sequence mismatch" then
      match run_mod_with_sequence env base 1 (recoverSeq cfg env b32 mout nextIdx).1 with
      | (PyResult.exn, evs2) =>
        (BMResult.internalError,
         evs ++ TraceEvent.sleep 1 :: (recoverSeq cfg env b32 mout nextIdx).2 ++ evs2)
      | (PyResult.ok (mcmd2, mcode2, mout2), evs2) =>
        (finalizeMod cfg p resolved note raw b32 bondCmd bondCode bondOut mcmd2 mcode2 mout2,
         evs ++ TraceEvent.sleep 1 :: (recoverSeq cfg env b32 mout nextIdx).2 ++ evs2)
    else
      (finalizeMod cfg p resolved note raw b32 bondCmd bondCode bondOut mcmd mcode mout, evs)

/-- The pre-submission sequence fetch followed by the mod-provider
submission (lines 454 onward), given the bond phase's reported outcome. -/
def modWhole (cfg : AppConfig) (env : ChainEnv) (p : Payload) (resolved : PyVal)
    (note raw b32 : String) (bondCmd : Option (List String)) (bondCode : Int)
    (bondOut : String) : BMResult × List TraceEvent :=
  ((modSubmitAndRecover cfg env p resolved note raw b32 bondCmd bondCode bondOut
      (mod_cmd_base cfg p b32 resolved) (seqArgOf (seqFetchLoop cfg env b32 0 3).1)
      (seqFetchLoop cfg env b32 0 3).2.1).1,
   (seqFetchLoop cfg env b32 0 3).2.2 ++
     (modSubmitAndRecover cfg env p resolved note raw b32 bondCmd bondCode bondOut
       (mod_cmd_base cfg p b32 resolved) (seqArgOf (seqFetchLoop cfg env b32 0 3).1)
       (seqFetchLoop cfg env b32 0 3).2.1).2)

/-- The bond-provider submission branch (`if not skip_bond`, lines 410–452),
followed by the mod phase. -/
def bondSubmitPhase (cfg : AppConfig) (env : ChainEnv) (p : Payload)
    (resolved : PyVal) (note raw b32 : String) : BMResult × List TraceEvent :=
  match toCmd? (bond_cmd cfg p b32 resolved) with
  | none => (BMResult.internalError, [])
  | some bcmd =>
    if env.bondTx.code ≠ 0 then
      (BMResult.bondFailed env.bondTx.out bcmd p.service resolved note (bondVal cfg p)
        cfg.keyring cfg.feesDefault raw b32, [TraceEvent.bondSubmit bcmd])
    else
      ((modWhole cfg env p resolved note raw b32 (some bcmd) env.bondTx.code env.bondTx.out).1,
       TraceEvent.bondSubmit bcmd :: TraceEvent.sleep 2 ::
         (modWhole cfg env p resolved note raw b32 (some bcmd) env.bondTx.code env.bondTx.out).2)

/-- The existing-registration check (lines 381–408): a zero exit of the
point lookup skips the bond with a synthetic successful outcome; a non-zero
exit, or any exception in the lookup, proceeds to bond. -/
def bondPhase (cfg : AppConfig) (env : ChainEnv) (p : Payload) (resolved : PyVal)
    (note raw b32 : String) : BMResult × List TraceEvent :=
  match toCmd? (provider_lookup_cmd cfg b32 resolved) with
  | none => bondSubmitPhase cfg env p resolved note raw b32
  | some lcmd =>
    if (env.providerLookup).code = 0 then
      ((modWhole cfg env p resolved note raw b32 none 0 "skipped: provider already exists").1,
       TraceEvent.providerLookup lcmd ::
         (modWhole cfg env p resolved note raw b32 none 0 "skipped: provider already exists").2)
    else
      ((bondSubmitPhase cfg env p resolved note raw b32).1,
       TraceEvent.providerLookup lcmd :: (bondSubmitPhase cfg env p resolved note raw b32).2)

/-- The `/api/bond-mod-provider` endpoint, `bond_and_mod_provider`:
returns the response together with the trace of external actions. -/
def bond_and_mod_provider (cfg : AppConfig) (env : ChainEnv) (p : Payload) :
    BMResult × List TraceEvent :=
  if truthy p.service then
    match resolveServiceStage cfg env p.service with
    | (PyResult.exn, evs0) => (BMResult.internalError, evs0)
    | (PyResult.ok (resolved, note), evs0) =>
      match derive_pubkeys cfg env cfg.keyName cfg.keyring with
      | (PyResult.exn, evs1) => (BMResult.internalError, evs0 ++ evs1)
      | (PyResult.ok (raw, b32, some e), evs1) =>
        (BMResult.pubkeyError e raw b32, evs0 ++ evs1)
      | (PyResult.ok (raw, b32, none), evs1) =>
        ((bondPhase cfg env p resolved note raw b32).1,
         evs0 ++ evs1 ++ (bondPhase cfg env p resolved note raw b32).2)
  else (BMResult.missingService, [])

/-! ### Observations on results and traces -/

/-- The HTTP status the endpoint answers with for each result. -/
def statusCode : BMResult → Nat
  | BMResult.missingService => 400
  | BMResult.internalError => 500
  | BMResult.pubkeyError _ _ _ => 500
  | BMResult.bondFailed _ _ _ _ _ _ _ _ _ _ => 500
  | BMResult.modFailed _ _ _ _ _ _ _ => 500
  | BMResult.success _ _ _ _ _ _ _ _ _ _ => 200

/-- The diagnostic text a failure response carries (the `error` / `detail`
payload); `none` when the response has no such field. -/
def resultDetail : BMResult → Option String
  | BMResult.pubkeyError e _ _ => some e
  | BMResult.bondFailed d _ _ _ _ _ _ _ _ _ => some d
  | BMResult.modFailed d _ _ _ _ _ _ => some d
  | _ => none

/-- Whether the response body carries the resolved service and the
caller-supplied inputs (the `inputs` dict of the source). -/
def hasResolvedService : BMResult → Bool
  | BMResult.bondFailed _ _ _ _ _ _ _ _ _ _ => true
  | BMResult.modFailed _ _ _ _ _ _ _ => true
  | BMResult.success _ _ _ _ _ _ _ _ _ _ => true
  | _ => false

/-- The bond-phase outcome (`bond_tx` exit code and output) reported by the
responses that carry one. -/
def bondReport : BMResult → Option (Int × String)
  | BMResult.modFailed _ _ _ _ _ bc bo => some (bc, bo)
  | BMResult.success _ _ _ _ _ _ bc bo _ _ => some (bc, bo)
  | _ => none

/-- The `(bond exit code, mod exit code)` pair of a success response. -/
def successCodes : BMResult → Option (Int × Int)
  | BMResult.success _ _ _ _ _ _ bc _ mc _ => some (bc, mc)
  | _ => none

/-- Event classifiers. -/
def isModSubmitEv : TraceEvent → Bool
  | TraceEvent.modSubmit _ => true
  | _ => false

/-- Whether the event is an account-sequence query. -/
def isAcctEv : TraceEvent → Bool
  | TraceEvent.acctQuery _ => true
  | _ => false

/-- Whether the event is a service-catalog query. -/
def isSvcEv : TraceEvent → Bool
  | TraceEvent.servicesQuery _ => true
  | _ => false

/-- Whether the event is the key-lookup command. -/
def isKeysEv : TraceEvent → Bool
  | TraceEvent.keysShow _ => true
  | _ => false

/-- The mod-provider transaction commands submitted, in order. -/
def modSubmits (evs : List TraceEvent) : List (List String) :=
  evs.filterMap (fun e => match e with | TraceEvent.modSubmit c => some c | _ => none)

/-- The bond-provider transaction commands submitted, in order. -/
def bondSubmits (evs : List TraceEvent) : List (List String) :=
  evs.filterMap (fun e => match e with | TraceEvent.bondSubmit c => some c | _ => none)

/-- Number of account-sequence queries in the trace. -/
def acctCountE (evs : List TraceEvent) : Nat := evs.countP isAcctEv

/-- Number of service-catalog queries in the trace. -/
def svcCountE (evs : List TraceEvent) : Nat := evs.countP isSvcEv

/-- Number of key-lookup invocations in the trace. -/
def keysCountE (evs : List TraceEvent) : Nat := evs.countP isKeysEv

/-- The part of the trace strictly after the first mod-provider submission
(the recovery window). -/
def afterFirstMod : List TraceEvent → List TraceEvent
  | [] => []
  | TraceEvent.modSubmit _ :: t => t
  | _ :: t => afterFirstMod t

/-- The part of the trace before the first mod-provider submission. -/
def beforeFirstMod (evs : List TraceEvent) : List TraceEvent :=
  evs.takeWhile (fun e => !isModSubmitEv e)

/-- A trace chunk containing no transaction submissions and no account
queries (resolution and identity events only). -/
def quiet (evs : List TraceEvent) : Bool :=
  evs.all (fun e =>
    match e with
    | TraceEvent.modSubmit _ => false
    | TraceEvent.bondSubmit _ => false
    | TraceEvent.acctQuery _ => false
    | _ => true)

/-- A trace chunk containing no mod-provider submission. -/
def noMod (evs : List TraceEvent) : Bool := evs.all (fun e => !isModSubmitEv e)

/-- A request field that is either absent or a string — the shapes a JSON
request supplies for the text fields the endpoint forwards. -/
def StrField (j : PyVal) : Prop := j = PyVal.null ∨ ∃ s, j = PyVal.str s

/-! ### String-command reductions -/

/-- An all-literal command list converts to exactly its strings. -/
theorem toCmd?_map_str (l : List String) : toCmd? (l.map PyVal.str) = some l := by
  induction l with
  | nil => rfl
  | cons h t ih => simp [toCmd?, ih]

/-- String form of the provider point-lookup command. -/
def providerLookupCmdS (cfg : AppConfig) (b32 rs : String) : List String :=
  ["arkeod", "--home", cfg.arkeodHome, "query", "arkeo", "provider", b32, rs, "-o", "json"]
    ++ nodeArgs cfg

/-- String form of the bond-provider transaction command. -/
def bondCmdS (cfg : AppConfig) (p : Payload) (b32 rs : String) : List String :=
  ["arkeod", "--home", cfg.arkeodHome, "tx", "arkeo", "bond-provider", b32, rs, bondVal cfg p]
    ++ nodeArgs cfg ++ chainArgs cfg
    ++ ["--from", cfg.keyName, "--fees", cfg.feesDefault, "--keyring-backend", cfg.keyring, "-y"]

/-- String form of `mod_cmd_base`, given the string values of the three
fields the source does not pass through `str()`. -/
def modBaseS (cfg : AppConfig) (p : Payload) (b32 rs uri sub pay : String) : List String :=
  ["arkeod", "--home", cfg.arkeodHome, "tx", "arkeo", "mod-provider", b32, rs, uri,
   nonceVal cfg p, statusVal p, minDurVal p, maxDurVal p, sub, pay, settleVal p]
    ++ nodeArgs cfg ++ chainArgs cfg
    ++ ["--from", cfg.keyName, "--fees", cfg.feesDefault, "--keyring-backend", cfg.keyring, "-y"]

theorem provider_lookup_cmd_str (cfg : AppConfig) (b32 rs : String) :
    provider_lookup_cmd cfg b32 (PyVal.str rs) = (providerLookupCmdS cfg b32 rs).map PyVal.str := by
  simp [provider_lookup_cmd, providerLookupCmdS]

theorem bond_cmd_str (cfg : AppConfig) (p : Payload) (b32 rs : String) :
    bond_cmd cfg p b32 (PyVal.str rs) = (bondCmdS cfg p b32 rs).map PyVal.str := by
  simp [bond_cmd, bondCmdS]

theorem mod_cmd_base_str (cfg : AppConfig) (p : Payload) (b32 rs uri sub pay : String)
    (huri : sentinelUriVal cfg p = PyVal.str uri) (hsub : subRatesVal p = PyVal.str sub)
    (hpay : payRatesVal p = PyVal.str pay) :
    mod_cmd_base cfg p b32 (PyVal.str rs) = (modBaseS cfg p b32 rs uri sub pay).map PyVal.str := by
  simp [mod_cmd_base, modBaseS, huri, hsub, hpay]

/-- A string-or-absent request field always yields a string after the
`or`-default. -/
theorem strField_pyOr {j : PyVal} (h : StrField j) (d : String) :
    ∃ s, pyOr j (PyVal.str d) = PyVal.str s := by
  rcases h with h | ⟨s, h⟩
  · exact ⟨d, by simp [h, pyOr, truthy]⟩
  · subst h
    by_cases hs : s = ""
    · exact ⟨d, by simp [hs, pyOr, truthy]⟩
    · exact ⟨s, by simp [pyOr, truthy, hs]⟩

/-- String-level index of `"--from"`. -/
def fromIdxS : List String → Nat
  | [] => 0
  | s :: t => if s = "--from" then 0 else fromIdxS t + 1

/-- String-level insertion of the sequence flags before `"--from"`. -/
def insertSeqS (cmd seqArg : List String) : List String :=
  cmd.take (fromIdxS cmd) ++ seqArg ++ cmd.drop (fromIdxS cmd)

theorem fromIdx_map_str (l : List String) : fromIdx (l.map PyVal.str) = fromIdxS l := by
  induction l with
  | nil => rfl
  | cons h t ih => by_cases hh : h = "--from" <;> simp [fromIdx, fromIdxS, hh, ih]

theorem insertBeforeFrom_map_str (l seqArg : List String) :
    insertBeforeFrom (l.map PyVal.str) seqArg = (insertSeqS l seqArg).map PyVal.str := by
  simp [insertBeforeFrom, insertSeqS, fromIdx_map_str, List.map_take, List.map_drop]

/-- Any element of the base command survives the sequence insertion. -/
theorem mem_insertSeqS {a : String} {l : List String} (seqArg : List String) (h : a ∈ l) :
    a ∈ insertSeqS l seqArg := by
  unfold insertSeqS
  rw [← List.take_append_drop (fromIdxS l) l] at h
  rcases List.mem_append.mp h with h1 | h2
  · exact List.mem_append.mpr (Or.inl (List.mem_append.mpr (Or.inl h1)))
  · exact List.mem_append.mpr (Or.inr h2)

/-- `run_mod_with_sequence` on an all-string base: the submission happens
and reports the indexed oracle outcome. -/
theorem run_mod_str (env : ChainEnv) (l : List String) (k : Nat) (seqArg : List String) :
    run_mod_with_sequence env (l.map PyVal.str) k seqArg =
      (PyResult.ok (insertSeqS l seqArg, (env.modTx k).code, (env.modTx k).out),
       [TraceEvent.modSubmit (insertSeqS l seqArg)]) := by
  simp [run_mod_with_sequence, insertBeforeFrom_map_str, toCmd?_map_str]

/-! ### Trace decomposition lemmas -/

theorem modSubmits_append (a b : List TraceEvent) :
    modSubmits (a ++ b) = modSubmits a ++ modSubmits b := by
  simp [modSubmits]

theorem bondSubmits_append (a b : List TraceEvent) :
    bondSubmits (a ++ b) = bondSubmits a ++ bondSubmits b := by
  simp [bondSubmits]

theorem acctCountE_append (a b : List TraceEvent) :
    acctCountE (a ++ b) = acctCountE a + acctCountE b := by
  simp [acctCountE, List.countP_append]

theorem insertSeqS_nil (l : List String) : insertSeqS l [] = l := by
  simp [insertSeqS]

theorem noMod_of_quiet {evs : List TraceEvent} (h : quiet evs = true) : noMod evs = true := by
  induction evs with
  | nil => rfl
  | cons e t ih =>
    rw [quiet, List.all_cons, Bool.and_eq_true] at h
    rw [noMod, List.all_cons, Bool.and_eq_true]
    refine ⟨?_, ih h.2⟩
    cases e <;> simp_all [isModSubmitEv]

theorem quiet_modSubmits {evs : List TraceEvent} (h : quiet evs = true) : modSubmits evs = [] := by
  induction evs with
  | nil => rfl
  | cons e t ih =>
    rw [quiet, List.all_cons, Bool.and_eq_true] at h
    cases e <;> simp_all [modSubmits, quiet]

theorem quiet_bondSubmits {evs : List TraceEvent} (h : quiet evs = true) : bondSubmits evs = [] := by
  induction evs with
  | nil => rfl
  | cons e t ih =>
    rw [quiet, List.all_cons, Bool.and_eq_true] at h
    cases e <;> simp_all [bondSubmits, quiet]

theorem quiet_acct {evs : List TraceEvent} (h : quiet evs = true) : acctCountE evs = 0 := by
  induction evs with
  | nil => rfl
  | cons e t ih =>
    rw [quiet, List.all_cons, Bool.and_eq_true] at h
    cases e <;> simp_all [acctCountE, isAcctEv, quiet]

theorem afterFirstMod_append {evs : List TraceEvent} (h : noMod evs = true) :
    ∀ rest, afterFirstMod (evs ++ rest) = afterFirstMod rest := by
  intro rest
  induction evs with
  | nil => rfl
  | cons e t ih =>
    rw [noMod, List.all_cons, Bool.and_eq_true] at h
    cases e <;> simp_all [afterFirstMod, isModSubmitEv, noMod]

theorem afterFirstMod_cons_mod (c : List String) (rest : List TraceEvent) :
    afterFirstMod (TraceEvent.modSubmit c :: rest) = rest := rfl

theorem beforeFirstMod_append {evs : List TraceEvent} (h : noMod evs = true) :
    ∀ rest, beforeFirstMod (evs ++ rest) = evs ++ beforeFirstMod rest := by
  intro rest
  induction evs with
  | nil => rfl
  | cons e t ih =>
    rw [noMod, List.all_cons, Bool.and_eq_true] at h
    cases e <;> simp_all [beforeFirstMod, isModSubmitEv, noMod, List.takeWhile]

theorem beforeFirstMod_cons_mod (c : List String) (rest : List TraceEvent) :
    beforeFirstMod (TraceEvent.modSubmit c :: rest) = [] := by
  simp [beforeFirstMod, isModSubmitEv, List.takeWhile]

/-- The catalog lookup emits exactly one external event. -/
theorem lookup_evs (cfg : AppConfig) (env : ChainEnv) (sid : String) :
    (lookup_service_name_by_id cfg env sid).2 = [TraceEvent.servicesQuery (svcAllCmd cfg)] := by
  unfold lookup_service_name_by_id
  split
  · rfl
  · split <;> rfl

/-- The service-resolution block emits at most the catalog query. -/
theorem resolve_evs (cfg : AppConfig) (env : ChainEnv) (s : PyVal) :
    (resolveServiceStage cfg env s).2 = [] ∨
    (resolveServiceStage cfg env s).2 = [TraceEvent.servicesQuery (svcAllCmd cfg)] := by
  cases s with
  | str t =>
    unfold resolveServiceStage
    by_cases hd : pyIsDigitStr (pyStrip t)
    · simp only [hd, if_true]
      have hl := lookup_evs cfg env (pyStrip t)
      rcases hres : lookup_service_name_by_id cfg env (pyStrip t) with ⟨pr, evs⟩
      rw [hres] at hl
      cases pr with
      | exn => right; simpa using hl
      | ok looked =>
        cases looked with
        | some v =>
          by_cases ht : truthy v <;> right <;> simp [ht] <;> simpa using hl
        | none => right; simpa using hl
    · left; simp [hd]
  | null => left; rfl
  | bool b => left; rfl
  | num n => left; rfl
  | arr items => left; rfl
  | obj fields => left; rfl

theorem quiet_resolve (cfg : AppConfig) (env : ChainEnv) (s : PyVal) :
    quiet (resolveServiceStage cfg env s).2 = true := by
  rcases resolve_evs cfg env s with h | h <;> rw [h] <;> rfl

/-- The identity-derivation step emits the key lookup and at most the
conversion call. -/
theorem derive_evs (cfg : AppConfig) (env : ChainEnv) (u kb : String) :
    (derive_pubkeys cfg env u kb).2 = [TraceEvent.keysShow (pubkeyCmd cfg u kb)] ∨
    ∃ r, (derive_pubkeys cfg env u kb).2 =
      [TraceEvent.keysShow (pubkeyCmd cfg u kb), TraceEvent.pubkeyRawCall (bech32Cmd r)] := by
  unfold derive_pubkeys
  split
  · left; rfl
  · split
    · left; rfl
    next raw _ =>
      split
      · left; rfl
      · split
        · right; exact ⟨raw, rfl⟩
        · split
          · right; exact ⟨raw, rfl⟩
          · right; exact ⟨raw, rfl⟩

theorem quiet_derive (cfg : AppConfig) (env : ChainEnv) (u kb : String) :
    quiet (derive_pubkeys cfg env u kb).2 = true := by
  rcases derive_evs cfg env u kb with h | ⟨r, h⟩ <;> rw [h] <;> rfl

/-- The account-fetch loop: no transactions, only account queries and
sleeps, at most `fuel` queries. -/
theorem fetch_trace (cfg : AppConfig) (env : ChainEnv) (b32 : String) :
    ∀ (fuel i : Nat),
      modSubmits (seqFetchLoop cfg env b32 i fuel).2.2 = [] ∧
      bondSubmits (seqFetchLoop cfg env b32 i fuel).2.2 = [] ∧
      noMod (seqFetchLoop cfg env b32 i fuel).2.2 = true ∧
      acctCountE (seqFetchLoop cfg env b32 i fuel).2.2 ≤ fuel := by
  intro fuel
  induction fuel with
  | zero => intro i; exact ⟨rfl, rfl, rfl, Nat.le_refl 0⟩
  | succ n ih =>
    intro i
    unfold seqFetchLoop
    rcases h : fetchSeqOnce env i with _ | v
    · simp only [h]
      rcases ih (i + 1) with ⟨h1, h2, h3, h4⟩
      refine ⟨?_, ?_, ?_, ?_⟩
      · simpa [modSubmits] using h1
      · simpa [bondSubmits] using h2
      · simpa [noMod, isModSubmitEv] using h3
      · simp only [acctCountE, List.countP_cons, isAcctEv]
        simpa [acctCountE, Nat.add_le_add_iff_right] using Nat.add_le_add_right h4 1
    · simp only [h]
      refine ⟨rfl, rfl, rfl, ?_⟩
      simp [acctCountE, isAcctEv, List.countP_cons]

/-- When every attempted extraction fails, the fetch loop yields no
sequence. -/
theorem fetch_all_fail (cfg : AppConfig) (env : ChainEnv) (b32 : String) :
    ∀ (fuel i : Nat), (∀ j, j < fuel → fetchSeqOnce env (i + j) = none) →
      (seqFetchLoop cfg env b32 i fuel).1 = none := by
  intro fuel
  induction fuel with
  | zero => intro i _; rfl
  | succ n ih =>
    intro i hf
    unfold seqFetchLoop
    have h0 : fetchSeqOnce env i = none := by simpa using hf 0 (Nat.succ_pos n)
    simp only [h0]
    exact ih (i + 1) (fun j hj => by
      have := hf (j + 1) (Nat.succ_lt_succ hj)
      simpa [Nat.add_assoc, Nat.add_comm 1 j] using this)

/-! ### Scenario reduction lemmas -/

theorem bondReport_finalize (cfg : AppConfig) (p : Payload) (resolved : PyVal)
    (note raw b32 : String) (bcm : Option (List String)) (bc : Int) (bo : String)
    (mcmd : List String) (mcode : Int) (mout : String) :
    bondReport (finalizeMod cfg p resolved note raw b32 bcm bc bo mcmd mcode mout) =
      some (bc, bo) := by
  unfold finalizeMod
  split <;> rfl

theorem successCodes_finalize (cfg : AppConfig) (p : Payload) (resolved : PyVal)
    (note raw b32 : String) (bcm : Option (List String)) (bc : Int) (bo : String)
    (mcmd : List String) (mcode : Int) (mout : String) (bc' mc' : Int)
    (h : successCodes (finalizeMod cfg p resolved note raw b32 bcm bc bo mcmd mcode mout) =
      some (bc', mc')) : bc' = bc ∧ mc' = 0 := by
  unfold finalizeMod at h
  rcases Decidable.em (mcode ≠ 0) with hc | hc
  · rw [if_pos hc] at h
    exact absurd h (by simp [successCodes])
  · rw [if_neg hc] at h
    simp only [successCodes, Option.some.injEq, Prod.mk.injEq] at h
    push_neg at hc
    exact ⟨h.1.symm, by omega⟩

theorem finalizeMod_fail (cfg : AppConfig) (p : Payload) (resolved : PyVal)
    (note raw b32 : String) (bcm : Option (List String)) (bc : Int) (bo : String)
    (mcmd : List String) (mcode : Int) (mout : String) (h : mcode ≠ 0) :
    finalizeMod cfg p resolved note raw b32 bcm bc bo mcmd mcode mout =
      BMResult.modFailed mout mcmd (theInputs cfg p resolved) raw b32 bc bo := by
  simp [finalizeMod, h]

/-- The trace of one `run_mod_with_sequence` call. -/
theorem run_mod_evs (env : ChainEnv) (base : List PyVal) (k : Nat) (sa : List String) :
    (run_mod_with_sequence env base k sa).2 = [] ∨
    ∃ c, (run_mod_with_sequence env base k sa).2 = [TraceEvent.modSubmit c] := by
  unfold run_mod_with_sequence
  split
  · left; rfl
  · right; exact ⟨_, rfl⟩

theorem svc_fetch (cfg : AppConfig) (env : ChainEnv) (b32 : String) :
    ∀ (fuel i : Nat), svcCountE (seqFetchLoop cfg env b32 i fuel).2.2 = 0 := by
  intro fuel
  induction fuel with
  | zero => intro i; rfl
  | succ n ih =>
    intro i
    unfold seqFetchLoop
    rcases h : fetchSeqOnce env i with _ | v
    · simp only [h]
      simpa [svcCountE, isSvcEv, List.countP_cons] using ih (i + 1)
    · simp [h, svcCountE, isSvcEv, List.countP_cons]

theorem keys_fetch (cfg : AppConfig) (env : ChainEnv) (b32 : String) :
    ∀ (fuel i : Nat), keysCountE (seqFetchLoop cfg env b32 i fuel).2.2 = 0 := by
  intro fuel
  induction fuel with
  | zero => intro i; rfl
  | succ n ih =>
    intro i
    unfold seqFetchLoop
    rcases h : fetchSeqOnce env i with _ | v
    · simp only [h]
      simpa [keysCountE, isKeysEv, List.countP_cons] using ih (i + 1)
    · simp [h, keysCountE, isKeysEv, List.countP_cons]

/-- No mismatch in the first submission: a single mod submission with the
prefetched sequence. -/
theorem msar_no_mismatch (cfg : AppConfig) (env : ChainEnv) (p : Payload)
    (resolved : PyVal) (note raw b32 : String) (bcm : Option (List String))
    (bc : Int) (bo : String) (l sa : List String) (ni : Nat)
    (hm : strContains (env.modTx 0).out "account sequence mismatch" = false) :
    modSubmitAndRecover cfg env p resolved note raw b32 bcm bc bo (l.map PyVal.str) sa ni =
      (finalizeMod cfg p resolved note raw b32 bcm bc bo (insertSeqS l sa)
        (env.modTx 0).code (env.modTx 0).out,
       [TraceEvent.modSubmit (insertSeqS l sa)]) := by
  unfold modSubmitAndRecover
  rw [run_mod_str]
  simp [hm]

/-- Mismatch with an extractable expected sequence: exactly one resubmission
with that sequence and no account re-query. -/
theorem msar_mismatch_extract (cfg : AppConfig) (env : ChainEnv) (p : Payload)
    (resolved : PyVal) (note raw b32 : String) (bcm : Option (List String))
    (bc : Int) (bo : String) (l sa : List String) (ni : Nat) (d : String)
    (hm : strContains (env.modTx 0).out "account sequence mismatch" = true)
    (hx : searchExpected (env.modTx 0).out = some d) :
    modSubmitAndRecover cfg env p resolved note raw b32 bcm bc bo (l.map PyVal.str) sa ni =
      (finalizeMod cfg p resolved note raw b32 bcm bc bo (insertSeqS l ["--sequence", d])
        (env.modTx 1).code (env.modTx 1).out,
       [TraceEvent.modSubmit (insertSeqS l sa), TraceEvent.sleep 1,
        TraceEvent.modSubmit (insertSeqS l ["--sequence", d])]) := by
  unfold modSubmitAndRecover
  rw [run_mod_str]
  simp only [hm, if_true]
  unfold recoverSeq
  rw [hx]
  rw [run_mod_str]
  simp

/-- Mismatch without an extractable sequence: up to two account re-queries,
then exactly one resubmission with whatever was recovered. -/
theorem msar_mismatch_refetch (cfg : AppConfig) (env : ChainEnv) (p : Payload)
    (resolved : PyVal) (note raw b32 : String) (bcm : Option (List String))
    (bc : Int) (bo : String) (l sa : List String) (ni : Nat)
    (hm : strContains (env.modTx 0).out "account sequence mismatch" = true)
    (hx : searchExpected (env.modTx 0).out = none) :
    modSubmitAndRecover cfg env p resolved note raw b32 bcm bc bo (l.map PyVal.str) sa ni =
      (finalizeMod cfg p resolved note raw b32 bcm bc bo
        (insertSeqS l (seqArgOf (seqFetchLoop cfg env b32 ni 2).1))
        (env.modTx 1).code (env.modTx 1).out,
       TraceEvent.modSubmit (insertSeqS l sa) :: TraceEvent.sleep 1 ::
         (seqFetchLoop cfg env b32 ni 2).2.2 ++
           [TraceEvent.modSubmit (insertSeqS l (seqArgOf (seqFetchLoop cfg env b32 ni 2).1))]) := by
  unfold modSubmitAndRecover
  rw [run_mod_str]
  simp only [hm, if_true]
  unfold recoverSeq
  rw [hx]
  rw [run_mod_str]
  simp

/-! ### Phase decompositions of the full run -/

theorem run_decomp (cfg : AppConfig) (env : ChainEnv) (p : Payload) (resolved : PyVal)
    (note raw b32 : String) (evs0 evs1 : List TraceEvent)
    (htr : truthy p.service = true)
    (hres : resolveServiceStage cfg env p.service = (PyResult.ok (resolved, note), evs0))
    (hder : derive_pubkeys cfg env cfg.keyName cfg.keyring =
      (PyResult.ok (raw, b32, none), evs1)) :
    bond_and_mod_provider cfg env p =
      ((bondPhase cfg env p resolved note raw b32).1,
       evs0 ++ evs1 ++ (bondPhase cfg env p resolved note raw b32).2) := by
  unfold bond_and_mod_provider
  rw [htr, hres, hder]
  rfl

theorem run_pubkeyErr (cfg : AppConfig) (env : ChainEnv) (p : Payload) (resolved : PyVal)
    (note e raw b32 : String) (evs0 evs1 : List TraceEvent)
    (htr : truthy p.service = true)
    (hres : resolveServiceStage cfg env p.service = (PyResult.ok (resolved, note), evs0))
    (hder : derive_pubkeys cfg env cfg.keyName cfg.keyring =
      (PyResult.ok (raw, b32, some e), evs1)) :
    bond_and_mod_provider cfg env p = (BMResult.pubkeyError e raw b32, evs0 ++ evs1) := by
  unfold bond_and_mod_provider
  rw [htr, hres, hder]
  rfl

theorem run_deriveCrash (cfg : AppConfig) (env : ChainEnv) (p : Payload) (resolved : PyVal)
    (note : String) (evs0 evs1 : List TraceEvent)
    (htr : truthy p.service = true)
    (hres : resolveServiceStage cfg env p.service = (PyResult.ok (resolved, note), evs0))
    (hder : derive_pubkeys cfg env cfg.keyName cfg.keyring = (PyResult.exn, evs1)) :
    bond_and_mod_provider cfg env p = (BMResult.internalError, evs0 ++ evs1) := by
  unfold bond_and_mod_provider
  rw [htr, hres, hder]
  rfl

theorem run_resolveCrash (cfg : AppConfig) (env : ChainEnv) (p : Payload)
    (evs0 : List TraceEvent)
    (htr : truthy p.service = true)
    (hres : resolveServiceStage cfg env p.service = (PyResult.exn, evs0)) :
    bond_and_mod_provider cfg env p = (BMResult.internalError, evs0) := by
  unfold bond_and_mod_provider
  rw [htr, hres]
  rfl

theorem run_missing (cfg : AppConfig) (env : ChainEnv) (p : Payload)
    (htr : truthy p.service = false) :
    bond_and_mod_provider cfg env p = (BMResult.missingService, []) := by
  unfold bond_and_mod_provider
  rw [htr]
  rfl

theorem bondPhase_skip (cfg : AppConfig) (env : ChainEnv) (p : Payload)
    (rs note raw b32 : String) (hlk : env.providerLookup.code = 0) :
    bondPhase cfg env p (PyVal.str rs) note raw b32 =
      ((modWhole cfg env p (PyVal.str rs) note raw b32 none 0
          "skipped: provider already exists").1,
       TraceEvent.providerLookup (providerLookupCmdS cfg b32 rs) ::
         (modWhole cfg env p (PyVal.str rs) note raw b32 none 0
           "skipped: provider already exists").2) := by
  unfold bondPhase
  rw [provider_lookup_cmd_str, toCmd?_map_str]
  simp [hlk]

theorem bondPhase_noskip (cfg : AppConfig) (env : ChainEnv) (p : Payload)
    (rs note raw b32 : String) (hlk : env.providerLookup.code ≠ 0) :
    bondPhase cfg env p (PyVal.str rs) note raw b32 =
      ((bondSubmitPhase cfg env p (PyVal.str rs) note raw b32).1,
       TraceEvent.providerLookup (providerLookupCmdS cfg b32 rs) ::
         (bondSubmitPhase cfg env p (PyVal.str rs) note raw b32).2) := by
  unfold bondPhase
  rw [provider_lookup_cmd_str, toCmd?_map_str]
  simp [hlk]

theorem bondSubmitPhase_fail (cfg : AppConfig) (env : ChainEnv) (p : Payload)
    (rs note raw b32 : String) (hb : env.bondTx.code ≠ 0) :
    bondSubmitPhase cfg env p (PyVal.str rs) note raw b32 =
      (BMResult.bondFailed env.bondTx.out (bondCmdS cfg p b32 rs) p.service
        (PyVal.str rs) note (bondVal cfg p) cfg.keyring cfg.feesDefault raw b32,
       [TraceEvent.bondSubmit (bondCmdS cfg p b32 rs)]) := by
  unfold bondSubmitPhase
  rw [bond_cmd_str, toCmd?_map_str]
  simp [hb]

theorem bondSubmitPhase_ok (cfg : AppConfig) (env : ChainEnv) (p : Payload)
    (rs note raw b32 : String) (hb : env.bondTx.code = 0) :
    bondSubmitPhase cfg env p (PyVal.str rs) note raw b32 =
      ((modWhole cfg env p (PyVal.str rs) note raw b32
          (some (bondCmdS cfg p b32 rs)) env.bondTx.code env.bondTx.out).1,
       TraceEvent.bondSubmit (bondCmdS cfg p b32 rs) :: TraceEvent.sleep 2 ::
         (modWhole cfg env p (PyVal.str rs) note raw b32
           (some (bondCmdS cfg p b32 rs)) env.bondTx.code env.bondTx.out).2) := by
  unfold bondSubmitPhase
  rw [bond_cmd_str, toCmd?_map_str]
  simp [hb]

/-! ### Composite facts about the mod phase -/

theorem recoverSeq_facts (cfg : AppConfig) (env : ChainEnv) (b32 mout : String) (ni : Nat) :
    svcCountE (recoverSeq cfg env b32 mout ni).2 = 0 ∧
    keysCountE (recoverSeq cfg env b32 mout ni).2 = 0 ∧
    bondSubmits (recoverSeq cfg env b32 mout ni).2 = [] ∧
    modSubmits (recoverSeq cfg env b32 mout ni).2 = [] ∧
    acctCountE (recoverSeq cfg env b32 mout ni).2 ≤ 2 := by
  unfold recoverSeq
  rcases hx : searchExpected mout with _ | d
  · exact ⟨svc_fetch cfg env b32 2 ni, keys_fetch cfg env b32 2 ni,
      (fetch_trace cfg env b32 2 ni).2.1, (fetch_trace cfg env b32 2 ni).1,
      (fetch_trace cfg env b32 2 ni).2.2.2⟩
  · exact ⟨rfl, rfl, rfl, rfl, by simp [acctCountE]⟩

/-- The mod submission/recovery step always starts by submitting with the
prefetched sequence, never bonds, never queries the catalog or the key
store, and reports the bond outcome it was given. -/
theorem msar_facts (cfg : AppConfig) (env : ChainEnv) (p : Payload) (resolved : PyVal)
    (note raw b32 : String) (bcm : Option (List String)) (bc : Int) (bo : String)
    (l sa : List String) (ni : Nat) :
    ∃ rest,
      modSubmits (modSubmitAndRecover cfg env p resolved note raw b32 bcm bc bo
        (l.map PyVal.str) sa ni).2 = insertSeqS l sa :: rest ∧
      bondSubmits (modSubmitAndRecover cfg env p resolved note raw b32 bcm bc bo
        (l.map PyVal.str) sa ni).2 = [] ∧
      svcCountE (modSubmitAndRecover cfg env p resolved note raw b32 bcm bc bo
        (l.map PyVal.str) sa ni).2 = 0 ∧
      keysCountE (modSubmitAndRecover cfg env p resolved note raw b32 bcm bc bo
        (l.map PyVal.str) sa ni).2 = 0 ∧
      bondReport (modSubmitAndRecover cfg env p resolved note raw b32 bcm bc bo
        (l.map PyVal.str) sa ni).1 = some (bc, bo) ∧
      beforeFirstMod (modSubmitAndRecover cfg env p resolved note raw b32 bcm bc bo
        (l.map PyVal.str) sa ni).2 = [] := by
  by_cases hm : strContains (env.modTx 0).out "account sequence mismatch" = true
  · rcases hx : searchExpected (env.modTx 0).out with _ | d
    · rw [msar_mismatch_refetch cfg env p resolved note raw b32 bcm bc bo l sa ni hm hx]
      rcases fetch_trace cfg env b32 2 ni with ⟨hf1, hf2, _, _⟩
      have h3 := svc_fetch cfg env b32 2 ni
      have h4 := keys_fetch cfg env b32 2 ni
      simp only [modSubmits] at hf1
      simp only [bondSubmits] at hf2
      simp only [svcCountE] at h3
      simp only [keysCountE] at h4
      refine ⟨[insertSeqS l (seqArgOf (seqFetchLoop cfg env b32 ni 2).1)],
        ?_, ?_, ?_, ?_, ?_, ?_⟩
      · simp [modSubmits, hf1]
      · simp [bondSubmits, hf2]
      · simp [svcCountE, isSvcEv, List.countP_cons, List.countP_append, h3]
      · simp [keysCountE, isKeysEv, List.countP_cons, List.countP_append, h4]
      · exact bondReport_finalize cfg p resolved note raw b32 bcm bc bo _ _ _
      · simp [beforeFirstMod, isModSubmitEv, List.takeWhile]
    · rw [msar_mismatch_extract cfg env p resolved note raw b32 bcm bc bo l sa ni d hm hx]
      refine ⟨[insertSeqS l ["--sequence", d]], ?_, ?_, ?_, ?_, ?_, ?_⟩
      · simp [modSubmits]
      · simp [bondSubmits]
      · simp [svcCountE, isSvcEv, List.countP_cons]
      · simp [keysCountE, isKeysEv, List.countP_cons]
      · exact bondReport_finalize cfg p resolved note raw b32 bcm bc bo _ _ _
      · simp [beforeFirstMod, isModSubmitEv, List.takeWhile]
  · have hm2 : strContains (env.modTx 0).out "account sequence mismatch" = false := by
      simpa using hm
    rw [msar_no_mismatch cfg env p resolved note raw b32 bcm bc bo l sa ni hm2]
    refine ⟨[], ?_, ?_, ?_, ?_, ?_, ?_⟩
    · simp [modSubmits]
    · simp [bondSubmits]
    · simp [svcCountE, isSvcEv, List.countP_cons]
    · simp [keysCountE, isKeysEv, List.countP_cons]
    · exact bondReport_finalize cfg p resolved note raw b32 bcm bc bo _ _ _
    · simp [beforeFirstMod, isModSubmitEv, List.takeWhile]

theorem sentinelUriVal_str (cfg : AppConfig) (p : Payload) (hsu : StrField p.sentinel_uri) :
    ∃ u, sentinelUriVal cfg p = PyVal.str u := by
  unfold sentinelUriVal
  exact strField_pyOr hsu _

theorem subRatesVal_str (p : Payload) (hsr : StrField p.subscription_rates) :
    ∃ u, subRatesVal p = PyVal.str u := by
  unfold subRatesVal
  exact strField_pyOr hsr _

theorem payRatesVal_str (p : Payload) (hpr : StrField p.pay_as_you_go_rates) :
    ∃ u, payRatesVal p = PyVal.str u := by
  unfold payRatesVal
  exact strField_pyOr hpr _

/-- The whole mod phase (prefetch plus submission plus recovery) for a
string-valued resolved service and string-shaped request fields: the first
submitted command is the base command with the prefetched sequence
inserted, no bond or catalog or key-store activity occurs, the reported
bond outcome is the one handed in, and at most 3 account queries precede
the first submission. -/
theorem modWhole_facts (cfg : AppConfig) (env : ChainEnv) (p : Payload)
    (rs note raw b32 : String) (bcm : Option (List String)) (bc : Int) (bo : String)
    (hsu : StrField p.sentinel_uri) (hsr : StrField p.subscription_rates)
    (hpr : StrField p.pay_as_you_go_rates) :
    ∃ base rest,
      toCmd? (mod_cmd_base cfg p b32 (PyVal.str rs)) = some base ∧
      modSubmits (modWhole cfg env p (PyVal.str rs) note raw b32 bcm bc bo).2 =
        insertSeqS base (seqArgOf (seqFetchLoop cfg env b32 0 3).1) :: rest ∧
      bondSubmits (modWhole cfg env p (PyVal.str rs) note raw b32 bcm bc bo).2 = [] ∧
      svcCountE (modWhole cfg env p (PyVal.str rs) note raw b32 bcm bc bo).2 = 0 ∧
      keysCountE (modWhole cfg env p (PyVal.str rs) note raw b32 bcm bc bo).2 = 0 ∧
      bondReport (modWhole cfg env p (PyVal.str rs) note raw b32 bcm bc bo).1 =
        some (bc, bo) ∧
      acctCountE (beforeFirstMod
        (modWhole cfg env p (PyVal.str rs) note raw b32 bcm bc bo).2) ≤ 3 := by
  rcases sentinelUriVal_str cfg p hsu with ⟨u, hu⟩
  rcases subRatesVal_str p hsr with ⟨su, hsu2⟩
  rcases payRatesVal_str p hpr with ⟨pa, hpa⟩
  have hbase := mod_cmd_base_str cfg p b32 rs u su pa hu hsu2 hpa
  rcases msar_facts cfg env p (PyVal.str rs) note raw b32 bcm bc bo
    (modBaseS cfg p b32 rs u su pa) (seqArgOf (seqFetchLoop cfg env b32 0 3).1)
    (seqFetchLoop cfg env b32 0 3).2.1 with ⟨rest, hm1, hm2, hm3, hm4, hm5, hm6⟩
  rcases fetch_trace cfg env b32 3 0 with ⟨hf1, hf2, hf3, hf4⟩
  have hsf := svc_fetch cfg env b32 3 0
  have hkf := keys_fetch cfg env b32 3 0
  refine ⟨modBaseS cfg p b32 rs u su pa, rest, ?_, ?_, ?_, ?_, ?_, ?_, ?_⟩
  · rw [hbase, toCmd?_map_str]
  · unfold modWhole
    rw [hbase]
    rw [modSubmits_append, hf1, hm1]
    rfl
  · unfold modWhole
    rw [hbase]
    rw [bondSubmits_append, hf2, hm2]
    rfl
  · unfold modWhole
    rw [hbase]
    simp only [svcCountE, List.countP_append] at *
    rw [hsf, hm3]
  · unfold modWhole
    rw [hbase]
    simp only [keysCountE, List.countP_append] at *
    rw [hkf, hm4]
  · unfold modWhole
    rw [hbase]
    exact hm5
  · unfold modWhole
    rw [hbase]
    rw [beforeFirstMod_append hf3]
    rw [hm6]
    simp only [acctCountE, List.countP_append] at *
    simpa using hf4

/-! ### Invariant chains through the phases -/

theorem svcCountE_append (a b : List TraceEvent) :
    svcCountE (a ++ b) = svcCountE a + svcCountE b := by
  simp [svcCountE, List.countP_append]

theorem keysCountE_append (a b : List TraceEvent) :
    keysCountE (a ++ b) = keysCountE a + keysCountE b := by
  simp [keysCountE, List.countP_append]

theorem svcCountE_cons_skip (e : TraceEvent) (t : List TraceEvent)
    (h : isSvcEv e = false) : svcCountE (e :: t) = svcCountE t := by
  simp [svcCountE, List.countP_cons, h]

theorem keysCountE_cons_skip (e : TraceEvent) (t : List TraceEvent)
    (h : isKeysEv e = false) : keysCountE (e :: t) = keysCountE t := by
  simp [keysCountE, List.countP_cons, h]

theorem acctCountE_cons_skip (e : TraceEvent) (t : List TraceEvent)
    (h : isAcctEv e = false) : acctCountE (e :: t) = acctCountE t := by
  simp [acctCountE, List.countP_cons, h]

theorem run_mod_aux (env : ChainEnv) (base : List PyVal) (k : Nat) (sa : List String) :
    svcCountE (run_mod_with_sequence env base k sa).2 = 0 ∧
    keysCountE (run_mod_with_sequence env base k sa).2 = 0 ∧
    bondSubmits (run_mod_with_sequence env base k sa).2 = [] := by
  unfold run_mod_with_sequence
  split <;> exact ⟨rfl, rfl, rfl⟩

theorem msar_aux (cfg : AppConfig) (env : ChainEnv) (p : Payload) (resolved : PyVal)
    (note raw b32 : String) (bcm : Option (List String)) (bc : Int) (bo : String)
    (base : List PyVal) (sa : List String) (ni : Nat) :
    svcCountE (modSubmitAndRecover cfg env p resolved note raw b32 bcm bc bo base sa ni).2 = 0 ∧
    keysCountE (modSubmitAndRecover cfg env p resolved note raw b32 bcm bc bo base sa ni).2 = 0 ∧
    bondSubmits (modSubmitAndRecover cfg env p resolved note raw b32 bcm bc bo base sa ni).2 = [] := by
  have hr0 := run_mod_aux env base 0 sa
  unfold modSubmitAndRecover
  split
  next evs heq =>
    rw [heq] at hr0
    exact hr0
  next mcmd mcode mout evs heq =>
    rw [heq] at hr0
    split
    · have hrec := recoverSeq_facts cfg env b32 mout ni
      have hr1 := run_mod_aux env base 1 (recoverSeq cfg env b32 mout ni).1
      have hsl1 : svcCountE (TraceEvent.sleep 1 :: (recoverSeq cfg env b32 mout ni).2) =
          svcCountE (recoverSeq cfg env b32 mout ni).2 :=
        svcCountE_cons_skip (TraceEvent.sleep 1) _ rfl
      have hkl1 : keysCountE (TraceEvent.sleep 1 :: (recoverSeq cfg env b32 mout ni).2) =
          keysCountE (recoverSeq cfg env b32 mout ni).2 :=
        keysCountE_cons_skip (TraceEvent.sleep 1) _ rfl
      have hbl1 : bondSubmits (TraceEvent.sleep 1 :: (recoverSeq cfg env b32 mout ni).2) =
          bondSubmits (recoverSeq cfg env b32 mout ni).2 := rfl
      split
      next evs2 heq2 =>
        rw [heq2] at hr1
        refine ⟨?_, ?_, ?_⟩
        · rw [svcCountE_append, svcCountE_append, hsl1, hr0.1, hrec.1, hr1.1]
        · rw [keysCountE_append, keysCountE_append, hkl1, hr0.2.1, hrec.2.1, hr1.2.1]
        · rw [bondSubmits_append, bondSubmits_append, hbl1, hr0.2.2, hrec.2.2.1, hr1.2.2]
          rfl
      next mcmd2 mcode2 mout2 evs2 heq2 =>
        rw [heq2] at hr1
        refine ⟨?_, ?_, ?_⟩
        · rw [svcCountE_append, svcCountE_append, hsl1, hr0.1, hrec.1, hr1.1]
        · rw [keysCountE_append, keysCountE_append, hkl1, hr0.2.1, hrec.2.1, hr1.2.1]
        · rw [bondSubmits_append, bondSubmits_append, hbl1, hr0.2.2, hrec.2.2.1, hr1.2.2]
          rfl
    · exact hr0

theorem modWhole_aux (cfg : AppConfig) (env : ChainEnv) (p : Payload) (resolved : PyVal)
    (note raw b32 : String) (bcm : Option (List String)) (bc : Int) (bo : String) :
    svcCountE (modWhole cfg env p resolved note raw b32 bcm bc bo).2 = 0 ∧
    keysCountE (modWhole cfg env p resolved note raw b32 bcm bc bo).2 = 0 ∧
    bondSubmits (modWhole cfg env p resolved note raw b32 bcm bc bo).2 =
      bondSubmits (modSubmitAndRecover cfg env p resolved note raw b32 bcm bc bo
        (mod_cmd_base cfg p b32 resolved) (seqArgOf (seqFetchLoop cfg env b32 0 3).1)
        (seqFetchLoop cfg env b32 0 3).2.1).2 := by
  have hm := msar_aux cfg env p resolved note raw b32 bcm bc bo
    (mod_cmd_base cfg p b32 resolved) (seqArgOf (seqFetchLoop cfg env b32 0 3).1)
    (seqFetchLoop cfg env b32 0 3).2.1
  have hs := svc_fetch cfg env b32 3 0
  have hk := keys_fetch cfg env b32 3 0
  have hb := (fetch_trace cfg env b32 3 0).2.1
  unfold modWhole
  refine ⟨?_, ?_, ?_⟩
  · rw [svcCountE_append, hs, hm.1]
  · rw [keysCountE_append, hk, hm.2.1]
  · rw [bondSubmits_append, hb]
    rfl

theorem bondSubmitPhase_aux (cfg : AppConfig) (env : ChainEnv) (p : Payload)
    (resolved : PyVal) (note raw b32 : String) :
    svcCountE (bondSubmitPhase cfg env p resolved note raw b32).2 = 0 ∧
    keysCountE (bondSubmitPhase cfg env p resolved note raw b32).2 = 0 := by
  unfold bondSubmitPhase
  split
  · exact ⟨rfl, rfl⟩
  next bcmd _ =>
    split
    · exact ⟨rfl, rfl⟩
    · have hw := modWhole_aux cfg env p resolved note raw b32 (some bcmd)
        env.bondTx.code env.bondTx.out
      constructor
      · rw [svcCountE_cons_skip (TraceEvent.bondSubmit bcmd) _ rfl,
          svcCountE_cons_skip (TraceEvent.sleep 2) _ rfl, hw.1]
      · rw [keysCountE_cons_skip (TraceEvent.bondSubmit bcmd) _ rfl,
          keysCountE_cons_skip (TraceEvent.sleep 2) _ rfl, hw.2.1]

theorem bondPhase_aux (cfg : AppConfig) (env : ChainEnv) (p : Payload)
    (resolved : PyVal) (note raw b32 : String) :
    svcCountE (bondPhase cfg env p resolved note raw b32).2 = 0 ∧
    keysCountE (bondPhase cfg env p resolved note raw b32).2 = 0 := by
  unfold bondPhase
  split
  · exact bondSubmitPhase_aux cfg env p resolved note raw b32
  next lcmd _ =>
    split
    · have hw := modWhole_aux cfg env p resolved note raw b32 none 0
        "skipped: provider already exists"
      exact ⟨by rw [svcCountE_cons_skip (TraceEvent.providerLookup lcmd) _ rfl, hw.1],
        by rw [keysCountE_cons_skip (TraceEvent.providerLookup lcmd) _ rfl, hw.2.1]⟩
    · have hb := bondSubmitPhase_aux cfg env p resolved note raw b32
      exact ⟨by rw [svcCountE_cons_skip (TraceEvent.providerLookup lcmd) _ rfl, hb.1],
        by rw [keysCountE_cons_skip (TraceEvent.providerLookup lcmd) _ rfl, hb.2]⟩

/-! ### Exit-code invariants of the success response -/

theorem msar_successCodes (cfg : AppConfig) (env : ChainEnv) (p : Payload)
    (resolved : PyVal) (note raw b32 : String) (bcm : Option (List String))
    (bc : Int) (bo : String) (base : List PyVal) (sa : List String) (ni : Nat)
    (bc' mc' : Int)
    (h : successCodes (modSubmitAndRecover cfg env p resolved note raw b32 bcm bc bo
      base sa ni).1 = some (bc', mc')) : bc' = bc ∧ mc' = 0 := by
  unfold modSubmitAndRecover at h
  split at h
  · exact absurd h (by simp [successCodes])
  · split at h
    · split at h
      · exact absurd h (by simp [successCodes])
      · exact successCodes_finalize _ _ _ _ _ _ _ _ _ _ _ _ _ _ h
    · exact successCodes_finalize _ _ _ _ _ _ _ _ _ _ _ _ _ _ h

theorem modWhole_successCodes (cfg : AppConfig) (env : ChainEnv) (p : Payload)
    (resolved : PyVal) (note raw b32 : String) (bcm : Option (List String))
    (bc : Int) (bo : String) (bc' mc' : Int)
    (h : successCodes (modWhole cfg env p resolved note raw b32 bcm bc bo).1 =
      some (bc', mc')) : bc' = bc ∧ mc' = 0 := by
  unfold modWhole at h
  exact msar_successCodes _ _ _ _ _ _ _ _ _ _ _ _ _ _ _ h

theorem bondSubmitPhase_successCodes (cfg : AppConfig) (env : ChainEnv) (p : Payload)
    (resolved : PyVal) (note raw b32 : String) (bc' mc' : Int)
    (h : successCodes (bondSubmitPhase cfg env p resolved note raw b32).1 =
      some (bc', mc')) : bc' = 0 ∧ mc' = 0 := by
  unfold bondSubmitPhase at h
  split at h
  · exact absurd h (by simp [successCodes])
  · split at h
    · exact absurd h (by simp [successCodes])
    next hcode =>
      have h2 := modWhole_successCodes _ _ _ _ _ _ _ _ _ _ _ _ h
      push_neg at hcode
      exact ⟨h2.1.trans hcode, h2.2⟩

theorem bondPhase_successCodes (cfg : AppConfig) (env : ChainEnv) (p : Payload)
    (resolved : PyVal) (note raw b32 : String) (bc' mc' : Int)
    (h : successCodes (bondPhase cfg env p resolved note raw b32).1 =
      some (bc', mc')) : bc' = 0 ∧ mc' = 0 := by
  unfold bondPhase at h
  split at h
  · exact bondSubmitPhase_successCodes _ _ _ _ _ _ _ _ _ h
  · split at h
    · exact modWhole_successCodes _ _ _ _ _ _ _ _ _ _ _ _ h
    · exact bondSubmitPhase_successCodes _ _ _ _ _ _ _ _ _ h

theorem run_successCodes (cfg : AppConfig) (env : ChainEnv) (p : Payload)
    (bc' mc' : Int)
    (h : successCodes (bond_and_mod_provider cfg env p).1 = some (bc', mc')) :
    bc' = 0 ∧ mc' = 0 := by
  unfold bond_and_mod_provider at h
  split at h
  · split at h
    · exact absurd h (by simp [successCodes])
    · split at h
      · exact absurd h (by simp [successCodes])
      · exact absurd h (by simp [successCodes])
      · exact bondPhase_successCodes _ _ _ _ _ _ _ _ _ h
  · exact absurd h (by simp [successCodes])

/-! ### Claim theorems -/

theorem bondSubmits_cons_lookup (c : List String) (t : List TraceEvent) :
    bondSubmits (TraceEvent.providerLookup c :: t) = bondSubmits t := rfl

theorem modSubmits_cons_lookup (c : List String) (t : List TraceEvent) :
    modSubmits (TraceEvent.providerLookup c :: t) = modSubmits t := rfl

theorem bondSubmits_cons_bond (c : List String) (t : List TraceEvent) :
    bondSubmits (TraceEvent.bondSubmit c :: t) = c :: bondSubmits t := rfl

theorem modSubmits_cons_bond (c : List String) (t : List TraceEvent) :
    modSubmits (TraceEvent.bondSubmit c :: t) = modSubmits t := rfl

theorem bondSubmits_cons_sleep (n : Nat) (t : List TraceEvent) :
    bondSubmits (TraceEvent.sleep n :: t) = bondSubmits t := rfl

theorem modSubmits_cons_sleep (n : Nat) (t : List TraceEvent) :
    modSubmits (TraceEvent.sleep n :: t) = modSubmits t := rfl

theorem modSubmits_cons_mod (c : List String) (t : List TraceEvent) :
    modSubmits (TraceEvent.modSubmit c :: t) = c :: modSubmits t := rfl

theorem modWhole_bondSubmits (cfg : AppConfig) (env : ChainEnv) (p : Payload)
    (resolved : PyVal) (note raw b32 : String) (bcm : Option (List String))
    (bc : Int) (bo : String) :
    bondSubmits (modWhole cfg env p resolved note raw b32 bcm bc bo).2 = [] :=
  ((modWhole_aux cfg env p resolved note raw b32 bcm bc bo).2.2).trans
    (msar_aux cfg env p resolved note raw b32 bcm bc bo _ _ _).2.2

/-- C1: when the provider-registration point lookup exits 0 for the
(encoded identity, resolved service) pair, the bond phase is skipped — no
bond transaction is submitted, the reported bond outcome is the synthetic
success `(0, "skipped: provider already exists")` — and the flow still
submits the metadata update; when the lookup exits non-zero, exactly one
bond transaction is submitted. -/
theorem claim_C1 (cfg : AppConfig) (env : ChainEnv) (p : Payload)
    (rs note raw b32 : String) (evs0 evs1 : List TraceEvent)
    (htr : truthy p.service = true)
    (hres : resolveServiceStage cfg env p.service = (PyResult.ok (PyVal.str rs, note), evs0))
    (hder : derive_pubkeys cfg env cfg.keyName cfg.keyring =
      (PyResult.ok (raw, b32, none), evs1))
    (hsu : StrField p.sentinel_uri) (hsr : StrField p.subscription_rates)
    (hpr : StrField p.pay_as_you_go_rates) :
    (env.providerLookup.code = 0 →
      bondSubmits (bond_and_mod_provider cfg env p).2 = [] ∧
      modSubmits (bond_and_mod_provider cfg env p).2 ≠ [] ∧
      bondReport (bond_and_mod_provider cfg env p).1 =
        some (0, "skipped: provider already exists")) ∧
    (env.providerLookup.code ≠ 0 →
      ∃ bc, bondSubmits (bond_and_mod_provider cfg env p).2 = [bc]) := by
  have hq0 : quiet evs0 = true := by
    have h := quiet_resolve cfg env p.service
    rw [hres] at h
    simpa using h
  have hq1 : quiet evs1 = true := by
    have h := quiet_derive cfg env cfg.keyName cfg.keyring
    rw [hder] at h
    simpa using h
  rw [run_decomp cfg env p (PyVal.str rs) note raw b32 evs0 evs1 htr hres hder]
  constructor
  · intro hlk
    rw [bondPhase_skip cfg env p rs note raw b32 hlk]
    obtain ⟨base, rest, hb1, hb2, hb3, hb4, hb5, hb6, hb7⟩ :=
      modWhole_facts cfg env p rs note raw b32 none 0
        "skipped: provider already exists" hsu hsr hpr
    refine ⟨?_, ?_, ?_⟩
    · simp only [bondSubmits_append, bondSubmits_cons_lookup,
        quiet_bondSubmits hq0, quiet_bondSubmits hq1, hb3, List.append_nil]
    · simp only [modSubmits_append, modSubmits_cons_lookup,
        quiet_modSubmits hq0, quiet_modSubmits hq1, hb2, List.nil_append]
      simp
    · simpa using hb6
  · intro hlk
    rw [bondPhase_noskip cfg env p rs note raw b32 hlk]
    by_cases hbc : env.bondTx.code ≠ 0
    · rw [bondSubmitPhase_fail cfg env p rs note raw b32 hbc]
      refine ⟨bondCmdS cfg p b32 rs, ?_⟩
      simp only [bondSubmits_append, bondSubmits_cons_lookup,
        quiet_bondSubmits hq0, quiet_bondSubmits hq1, List.nil_append]
      rfl
    · push_neg at hbc
      rw [bondSubmitPhase_ok cfg env p rs note raw b32 hbc]
      refine ⟨bondCmdS cfg p b32 rs, ?_⟩
      simp only [bondSubmits_append, bondSubmits_cons_lookup, bondSubmits_cons_bond,
        bondSubmits_cons_sleep, quiet_bondSubmits hq0, quiet_bondSubmits hq1,
        modWhole_bondSubmits, List.nil_append]

theorem afterFirstMod_cons_lookup (c : List String) (t : List TraceEvent) :
    afterFirstMod (TraceEvent.providerLookup c :: t) = afterFirstMod t := rfl

theorem afterFirstMod_cons_bond (c : List String) (t : List TraceEvent) :
    afterFirstMod (TraceEvent.bondSubmit c :: t) = afterFirstMod t := rfl

theorem afterFirstMod_cons_sleep (n : Nat) (t : List TraceEvent) :
    afterFirstMod (TraceEvent.sleep n :: t) = afterFirstMod t := rfl

/-- The mod phase when the first submission's output carries the mismatch
marker and the expected sequence is extractable: the whole phase is the
prefetch, the first submission, one sleep, and one resubmission carrying
`--sequence d`. -/
theorem modWhole_extract_trace (cfg : AppConfig) (env : ChainEnv) (p : Payload)
    (rs note raw b32 : String) (bcm : Option (List String)) (bc : Int) (bo : String)
    (d : String)
    (hsu : StrField p.sentinel_uri) (hsr : StrField p.subscription_rates)
    (hpr : StrField p.pay_as_you_go_rates)
    (hm : strContains (env.modTx 0).out "account sequence mismatch" = true)
    (hx : searchExpected (env.modTx 0).out = some d) :
    ∃ base,
      toCmd? (mod_cmd_base cfg p b32 (PyVal.str rs)) = some base ∧
      modWhole cfg env p (PyVal.str rs) note raw b32 bcm bc bo =
        (finalizeMod cfg p (PyVal.str rs) note raw b32 bcm bc bo
          (insertSeqS base ["--sequence", d]) (env.modTx 1).code (env.modTx 1).out,
         (seqFetchLoop cfg env b32 0 3).2.2 ++
           (TraceEvent.modSubmit
              (insertSeqS base (seqArgOf (seqFetchLoop cfg env b32 0 3).1)) ::
            TraceEvent.sleep 1 ::
            [TraceEvent.modSubmit (insertSeqS base ["--sequence", d])])) := by
  rcases sentinelUriVal_str cfg p hsu with ⟨u, hu⟩
  rcases subRatesVal_str p hsr with ⟨su, hsu2⟩
  rcases payRatesVal_str p hpr with ⟨pa, hpa⟩
  have hbase := mod_cmd_base_str cfg p b32 rs u su pa hu hsu2 hpa
  refine ⟨modBaseS cfg p b32 rs u su pa, by rw [hbase, toCmd?_map_str], ?_⟩
  unfold modWhole
  rw [hbase, msar_mismatch_extract cfg env p (PyVal.str rs) note raw b32 bcm bc bo
    (modBaseS cfg p b32 rs u su pa) (seqArgOf (seqFetchLoop cfg env b32 0 3).1)
    (seqFetchLoop cfg env b32 0 3).2.1 d hm hx]

/-- C2: for a first metadata submission whose raw output contains the
literal mismatch marker and matches `expected` + digits `d`, exactly one
resubmission occurs, its command carries `--sequence d`, and no account
query happens during recovery. -/
theorem claim_C2 (cfg : AppConfig) (env : ChainEnv) (p : Payload)
    (rs note raw b32 : String) (evs0 evs1 : List TraceEvent) (d : String)
    (htr : truthy p.service = true)
    (hres : resolveServiceStage cfg env p.service = (PyResult.ok (PyVal.str rs, note), evs0))
    (hder : derive_pubkeys cfg env cfg.keyName cfg.keyring =
      (PyResult.ok (raw, b32, none), evs1))
    (hsu : StrField p.sentinel_uri) (hsr : StrField p.subscription_rates)
    (hpr : StrField p.pay_as_you_go_rates)
    (hpath : env.providerLookup.code = 0 ∨ env.bondTx.code = 0)
    (hm : strContains (env.modTx 0).out "account sequence mismatch" = true)
    (hx : searchExpected (env.modTx 0).out = some d) :
    ∃ c1 c2,
      modSubmits (bond_and_mod_provider cfg env p).2 = [c1, c2] ∧
      (∃ pre post, c2 = pre ++ ["--sequence", d] ++ post) ∧
      acctCountE (afterFirstMod (bond_and_mod_provider cfg env p).2) = 0 := by
  have hq0 : quiet evs0 = true := by
    have h := quiet_resolve cfg env p.service
    rw [hres] at h
    simpa using h
  have hq1 : quiet evs1 = true := by
    have h := quiet_derive cfg env cfg.keyName cfg.keyring
    rw [hder] at h
    simpa using h
  rw [run_decomp cfg env p (PyVal.str rs) note raw b32 evs0 evs1 htr hres hder]
  have hfm := (fetch_trace cfg env b32 3 0).1
  have hfnm := (fetch_trace cfg env b32 3 0).2.2.1
  rcases hpath with hlk | hbc
  · rw [bondPhase_skip cfg env p rs note raw b32 hlk]
    obtain ⟨base, hb1, hb2⟩ := modWhole_extract_trace cfg env p rs note raw b32 none 0
      "skipped: provider already exists" d hsu hsr hpr hm hx
    rw [hb2]
    refine ⟨insertSeqS base (seqArgOf (seqFetchLoop cfg env b32 0 3).1),
      insertSeqS base ["--sequence", d], ?_, ?_, ?_⟩
    · simp only [modSubmits_append, modSubmits_cons_lookup, modSubmits_cons_sleep,
        quiet_modSubmits hq0, quiet_modSubmits hq1, hfm, List.nil_append]
      rfl
    · exact ⟨base.take (fromIdxS base), base.drop (fromIdxS base), rfl⟩
    · simp only [List.append_assoc, afterFirstMod_append (noMod_of_quiet hq0),
        afterFirstMod_append (noMod_of_quiet hq1), afterFirstMod_cons_lookup,
        afterFirstMod_append hfnm, afterFirstMod_cons_mod]
      rfl
  · by_cases hlk2 : env.providerLookup.code = 0
    · rw [bondPhase_skip cfg env p rs note raw b32 hlk2]
      obtain ⟨base, hb1, hb2⟩ := modWhole_extract_trace cfg env p rs note raw b32 none 0
        "skipped: provider already exists" d hsu hsr hpr hm hx
      rw [hb2]
      refine ⟨insertSeqS base (seqArgOf (seqFetchLoop cfg env b32 0 3).1),
        insertSeqS base ["--sequence", d], ?_, ?_, ?_⟩
      · simp only [modSubmits_append, modSubmits_cons_lookup, modSubmits_cons_sleep,
          quiet_modSubmits hq0, quiet_modSubmits hq1, hfm, List.nil_append]
        rfl
      · exact ⟨base.take (fromIdxS base), base.drop (fromIdxS base), rfl⟩
      · simp only [List.append_assoc, afterFirstMod_append (noMod_of_quiet hq0),
          afterFirstMod_append (noMod_of_quiet hq1), afterFirstMod_cons_lookup,
          afterFirstMod_append hfnm, afterFirstMod_cons_mod]
        rfl
    · rw [bondPhase_noskip cfg env p rs note raw b32 hlk2,
        bondSubmitPhase_ok cfg env p rs note raw b32 hbc]
      obtain ⟨base, hb1, hb2⟩ := modWhole_extract_trace cfg env p rs note raw b32
        (some (bondCmdS cfg p b32 rs)) env.bondTx.code env.bondTx.out d hsu hsr hpr hm hx
      rw [hb2]
      refine ⟨insertSeqS base (seqArgOf (seqFetchLoop cfg env b32 0 3).1),
        insertSeqS base ["--sequence", d], ?_, ?_, ?_⟩
      · simp only [modSubmits_append, modSubmits_cons_lookup, modSubmits_cons_bond,
          modSubmits_cons_sleep, quiet_modSubmits hq0, quiet_modSubmits hq1, hfm,
          List.nil_append]
        rfl
      · exact ⟨base.take (fromIdxS base), base.drop (fromIdxS base), rfl⟩
      · simp only [List.append_assoc, afterFirstMod_append (noMod_of_quiet hq0),
          afterFirstMod_append (noMod_of_quiet hq1), afterFirstMod_cons_lookup,
          afterFirstMod_cons_bond, afterFirstMod_cons_sleep,
          afterFirstMod_append hfnm, afterFirstMod_cons_mod]
        rfl

/-- The mod phase when the first submission mismatches and no expected
sequence is extractable: prefetch, first submission, sleep, up to two fresh
account queries, one resubmission with whatever was recovered. -/
theorem modWhole_refetch_trace (cfg : AppConfig) (env : ChainEnv) (p : Payload)
    (rs note raw b32 : String) (bcm : Option (List String)) (bc : Int) (bo : String)
    (hsu : StrField p.sentinel_uri) (hsr : StrField p.subscription_rates)
    (hpr : StrField p.pay_as_you_go_rates)
    (hm : strContains (env.modTx 0).out "account sequence mismatch" = true)
    (hx : searchExpected (env.modTx 0).out = none) :
    ∃ base,
      toCmd? (mod_cmd_base cfg p b32 (PyVal.str rs)) = some base ∧
      modWhole cfg env p (PyVal.str rs) note raw b32 bcm bc bo =
        (finalizeMod cfg p (PyVal.str rs) note raw b32 bcm bc bo
          (insertSeqS base
            (seqArgOf (seqFetchLoop cfg env b32 (seqFetchLoop cfg env b32 0 3).2.1 2).1))
          (env.modTx 1).code (env.modTx 1).out,
         (seqFetchLoop cfg env b32 0 3).2.2 ++
           (TraceEvent.modSubmit
              (insertSeqS base (seqArgOf (seqFetchLoop cfg env b32 0 3).1)) ::
            TraceEvent.sleep 1 ::
            (seqFetchLoop cfg env b32 (seqFetchLoop cfg env b32 0 3).2.1 2).2.2 ++
              [TraceEvent.modSubmit (insertSeqS base
                (seqArgOf (seqFetchLoop cfg env b32 (seqFetchLoop cfg env b32 0 3).2.1 2).1))])) := by
  rcases sentinelUriVal_str cfg p hsu with ⟨u, hu⟩
  rcases subRatesVal_str p hsr with ⟨su, hsu2⟩
  rcases payRatesVal_str p hpr with ⟨pa, hpa⟩
  have hbase := mod_cmd_base_str cfg p b32 rs u su pa hu hsu2 hpa
  refine ⟨modBaseS cfg p b32 rs u su pa, by rw [hbase, toCmd?_map_str], ?_⟩
  unfold modWhole
  rw [hbase, msar_mismatch_refetch cfg env p (PyVal.str rs) note raw b32 bcm bc bo
    (modBaseS cfg p b32 rs u su pa) (seqArgOf (seqFetchLoop cfg env b32 0 3).1)
    (seqFetchLoop cfg env b32 0 3).2.1 hm hx]

/-- The mod phase under a first-submission mismatch: exactly two
submissions, at most two recovery account queries when extraction fails,
and a failing resubmission turns into the terminal mod-failure response
carrying that resubmission's raw output. -/
theorem modWhole_mismatch_facts (cfg : AppConfig) (env : ChainEnv) (p : Payload)
    (rs note raw b32 : String) (bcm : Option (List String)) (bc : Int) (bo : String)
    (hsu : StrField p.sentinel_uri) (hsr : StrField p.subscription_rates)
    (hpr : StrField p.pay_as_you_go_rates)
    (hm : strContains (env.modTx 0).out "account sequence mismatch" = true) :
    (modSubmits (modWhole cfg env p (PyVal.str rs) note raw b32 bcm bc bo).2).length = 2 ∧
    (searchExpected (env.modTx 0).out = none →
      acctCountE (afterFirstMod
        (modWhole cfg env p (PyVal.str rs) note raw b32 bcm bc bo).2) ≤ 2) ∧
    ((env.modTx 1).code ≠ 0 →
      statusCode (modWhole cfg env p (PyVal.str rs) note raw b32 bcm bc bo).1 = 500 ∧
      resultDetail (modWhole cfg env p (PyVal.str rs) note raw b32 bcm bc bo).1 =
        some (env.modTx 1).out) := by
  have hfm := (fetch_trace cfg env b32 3 0).1
  have hfnm := (fetch_trace cfg env b32 3 0).2.2.1
  rcases hx : searchExpected (env.modTx 0).out with _ | d
  · obtain ⟨base, hb1, hb2⟩ := modWhole_refetch_trace cfg env p rs note raw b32 bcm bc bo
      hsu hsr hpr hm hx
    have hfm2 := (fetch_trace cfg env b32 2 (seqFetchLoop cfg env b32 0 3).2.1).1
    have hfa2 := (fetch_trace cfg env b32 2 (seqFetchLoop cfg env b32 0 3).2.1).2.2.2
    rw [hb2]
    refine ⟨?_, ?_, ?_⟩
    · simp only [modSubmits_append, modSubmits_cons_mod, modSubmits_cons_sleep, hfm,
        hfm2, List.nil_append]
      rfl
    · intro _
      simp only [List.cons_append, afterFirstMod_append hfnm, afterFirstMod_cons_mod]
      rw [acctCountE_cons_skip (TraceEvent.sleep 1) _ rfl, acctCountE_append]
      have h2 : acctCountE [TraceEvent.modSubmit (insertSeqS base
          (seqArgOf (seqFetchLoop cfg env b32 (seqFetchLoop cfg env b32 0 3).2.1 2).1))] = 0 := rfl
      omega
    · intro hc
      rw [finalizeMod_fail cfg p (PyVal.str rs) note raw b32 bcm bc bo _ _ _ hc]
      exact ⟨rfl, rfl⟩
  · obtain ⟨base, hb1, hb2⟩ := modWhole_extract_trace cfg env p rs note raw b32 bcm bc bo
      d hsu hsr hpr hm hx
    rw [hb2]
    refine ⟨?_, ?_, ?_⟩
    · simp only [modSubmits_append, modSubmits_cons_mod, modSubmits_cons_sleep, hfm,
        List.nil_append]
      rfl
    · intro hcontra
      exact absurd hcontra (by simp)
    · intro hc
      rw [finalizeMod_fail cfg p (PyVal.str rs) note raw b32 bcm bc bo _ _ _ hc]
      exact ⟨rfl, rfl⟩

/-- C3: mismatch recovery happens at most once per operation — under a
first-submission mismatch exactly two mod submissions occur in total; when
expected-sequence extraction fails the account is re-queried at most 2
times during recovery; and a non-zero exit of the resubmission makes the
operation terminal (HTTP 500 with that output), with no further
resubmission. -/
theorem claim_C3 (cfg : AppConfig) (env : ChainEnv) (p : Payload)
    (rs note raw b32 : String) (evs0 evs1 : List TraceEvent)
    (htr : truthy p.service = true)
    (hres : resolveServiceStage cfg env p.service = (PyResult.ok (PyVal.str rs, note), evs0))
    (hder : derive_pubkeys cfg env cfg.keyName cfg.keyring =
      (PyResult.ok (raw, b32, none), evs1))
    (hsu : StrField p.sentinel_uri) (hsr : StrField p.subscription_rates)
    (hpr : StrField p.pay_as_you_go_rates)
    (hpath : env.providerLookup.code = 0 ∨ env.bondTx.code = 0)
    (hm : strContains (env.modTx 0).out "account sequence mismatch" = true) :
    (modSubmits (bond_and_mod_provider cfg env p).2).length = 2 ∧
    (searchExpected (env.modTx 0).out = none →
      acctCountE (afterFirstMod (bond_and_mod_provider cfg env p).2) ≤ 2) ∧
    ((env.modTx 1).code ≠ 0 →
      statusCode (bond_and_mod_provider cfg env p).1 = 500 ∧
      resultDetail (bond_and_mod_provider cfg env p).1 = some (env.modTx 1).out) := by
  have hq0 : quiet evs0 = true := by
    have h := quiet_resolve cfg env p.service
    rw [hres] at h
    simpa using h
  have hq1 : quiet evs1 = true := by
    have h := quiet_derive cfg env cfg.keyName cfg.keyring
    rw [hder] at h
    simpa using h
  rw [run_decomp cfg env p (PyVal.str rs) note raw b32 evs0 evs1 htr hres hder]
  rcases hpath with hlk | hbc
  · rw [bondPhase_skip cfg env p rs note raw b32 hlk]
    have hw := modWhole_mismatch_facts cfg env p rs note raw b32 none 0
      "skipped: provider already exists" hsu hsr hpr hm
    refine ⟨?_, ?_, ?_⟩
    · simp only [List.append_assoc, modSubmits_append, modSubmits_cons_lookup,
        quiet_modSubmits hq0, quiet_modSubmits hq1, List.nil_append]
      exact hw.1
    · intro hx
      simp only [List.append_assoc, afterFirstMod_append (noMod_of_quiet hq0),
        afterFirstMod_append (noMod_of_quiet hq1), afterFirstMod_cons_lookup]
      exact hw.2.1 hx
    · exact hw.2.2
  · by_cases hlk2 : env.providerLookup.code = 0
    · rw [bondPhase_skip cfg env p rs note raw b32 hlk2]
      have hw := modWhole_mismatch_facts cfg env p rs note raw b32 none 0
        "skipped: provider already exists" hsu hsr hpr hm
      refine ⟨?_, ?_, ?_⟩
      · simp only [List.append_assoc, modSubmits_append, modSubmits_cons_lookup,
          quiet_modSubmits hq0, quiet_modSubmits hq1, List.nil_append]
        exact hw.1
      · intro hx
        simp only [List.append_assoc, afterFirstMod_append (noMod_of_quiet hq0),
          afterFirstMod_append (noMod_of_quiet hq1), afterFirstMod_cons_lookup]
        exact hw.2.1 hx
      · exact hw.2.2
    · rw [bondPhase_noskip cfg env p rs note raw b32 hlk2,
        bondSubmitPhase_ok cfg env p rs note raw b32 hbc]
      have hw := modWhole_mismatch_facts cfg env p rs note raw b32
        (some (bondCmdS cfg p b32 rs)) env.bondTx.code env.bondTx.out hsu hsr hpr hm
      refine ⟨?_, ?_, ?_⟩
      · simp only [List.append_assoc, modSubmits_append, modSubmits_cons_lookup,
          modSubmits_cons_bond, modSubmits_cons_sleep, quiet_modSubmits hq0,
          quiet_modSubmits hq1, List.nil_append]
        exact hw.1
      · intro hx
        simp only [List.append_assoc, afterFirstMod_append (noMod_of_quiet hq0),
          afterFirstMod_append (noMod_of_quiet hq1), afterFirstMod_cons_lookup,
          afterFirstMod_cons_bond, afterFirstMod_cons_sleep]
        exact hw.2.1 hx
      · exact hw.2.2

theorem derive_svc_keys (cfg : AppConfig) (env : ChainEnv) (u kb : String) :
    svcCountE (derive_pubkeys cfg env u kb).2 = 0 ∧
    keysCountE (derive_pubkeys cfg env u kb).2 = 1 := by
  rcases derive_evs cfg env u kb with h | ⟨r, h⟩ <;> rw [h] <;> exact ⟨rfl, rfl⟩

/-- C4 (amended): a `derive_pubkeys` failure that is reported as an error
tuple — lookup exit non-zero, unparseable output, empty/absent string
`"key"`, conversion exit non-zero, or no `Bech32 Acc:` line — makes the
operation terminal with HTTP 500 carrying the diagnostic text, with no
bond and no metadata transaction submitted; when the lookup output parses
to valid JSON that is not a dict with a string `"key"` value, the
operation still aborts with no transactions, but through an uncaught
exception whose response carries no diagnostic text. -/
theorem claim_C4 (cfg : AppConfig) (env : ChainEnv) (p : Payload) (resolved : PyVal)
    (note : String) (evs0 : List TraceEvent)
    (htr : truthy p.service = true)
    (hres : resolveServiceStage cfg env p.service = (PyResult.ok (resolved, note), evs0)) :
    (∀ raw b32 e evs1,
      derive_pubkeys cfg env cfg.keyName cfg.keyring =
        (PyResult.ok (raw, b32, some e), evs1) →
      bond_and_mod_provider cfg env p = (BMResult.pubkeyError e raw b32, evs0 ++ evs1) ∧
      statusCode (bond_and_mod_provider cfg env p).1 = 500 ∧
      resultDetail (bond_and_mod_provider cfg env p).1 = some e ∧
      bondSubmits (bond_and_mod_provider cfg env p).2 = [] ∧
      modSubmits (bond_and_mod_provider cfg env p).2 = []) ∧
    (∀ evs1,
      derive_pubkeys cfg env cfg.keyName cfg.keyring = (PyResult.exn, evs1) →
      bond_and_mod_provider cfg env p = (BMResult.internalError, evs0 ++ evs1) ∧
      statusCode (bond_and_mod_provider cfg env p).1 = 500 ∧
      resultDetail (bond_and_mod_provider cfg env p).1 = none ∧
      bondSubmits (bond_and_mod_provider cfg env p).2 = [] ∧
      modSubmits (bond_and_mod_provider cfg env p).2 = []) := by
  have hq0 : quiet evs0 = true := by
    have h := quiet_resolve cfg env p.service
    rw [hres] at h
    simpa using h
  constructor
  · intro raw b32 e evs1 hder
    have hq1 : quiet evs1 = true := by
      have h := quiet_derive cfg env cfg.keyName cfg.keyring
      rw [hder] at h
      simpa using h
    have hr := run_pubkeyErr cfg env p resolved note e raw b32 evs0 evs1 htr hres hder
    rw [hr]
    exact ⟨rfl, rfl, rfl,
      by rw [bondSubmits_append, quiet_bondSubmits hq0, quiet_bondSubmits hq1]; rfl,
      by rw [modSubmits_append, quiet_modSubmits hq0, quiet_modSubmits hq1]; rfl⟩
  · intro evs1 hder
    have hq1 : quiet evs1 = true := by
      have h := quiet_derive cfg env cfg.keyName cfg.keyring
      rw [hder] at h
      simpa using h
    have hr := run_deriveCrash cfg env p resolved note evs0 evs1 htr hres hder
    rw [hr]
    exact ⟨rfl, rfl, rfl,
      by rw [bondSubmits_append, quiet_bondSubmits hq0, quiet_bondSubmits hq1]; rfl,
      by rw [modSubmits_append, quiet_modSubmits hq0, quiet_modSubmits hq1]; rfl⟩

/-- C5 (amended): for a string service reference whose stripped form is all
digits, a catalog lookup is attempted; when that lookup returns no name —
query failure, output that fails to parse as JSON, or a parsed dict with no
entry matching the id — the resolved service is the original reference,
the advisory note "could not resolve service id {id} to name" is attached,
and the operation continues to identity resolution; when the catalog
output parses to valid non-dict JSON the operation instead aborts through
an uncaught exception.  For a non-digit string reference no catalog lookup
occurs anywhere in the run and the reference passes through with no
note. -/
theorem claim_C5 (cfg : AppConfig) (env : ChainEnv) (p : Payload) (s : String)
    (hsvc : p.service = PyVal.str s) (hne : s ≠ "") :
    (pyIsDigitStr (pyStrip s) = true →
      (∀ levs, lookup_service_name_by_id cfg env (pyStrip s) = (PyResult.ok none, levs) →
        resolveServiceStage cfg env p.service =
          (PyResult.ok (PyVal.str s,
            "could not resolve service id " ++ pyStrip s ++ " to name"), levs) ∧
        svcCountE (bond_and_mod_provider cfg env p).2 ≥ 1 ∧
        keysCountE (bond_and_mod_provider cfg env p).2 ≥ 1) ∧
      (∀ levs, lookup_service_name_by_id cfg env (pyStrip s) = (PyResult.exn, levs) →
        bond_and_mod_provider cfg env p = (BMResult.internalError, levs))) ∧
    (pyIsDigitStr (pyStrip s) = false →
      resolveServiceStage cfg env p.service = (PyResult.ok (PyVal.str s, ""), []) ∧
      svcCountE (bond_and_mod_provider cfg env p).2 = 0) := by
  have htr : truthy p.service = true := by
    rw [hsvc]
    simpa [truthy] using hne
  constructor
  · intro hd
    constructor
    · intro levs hlk
      have hres : resolveServiceStage cfg env p.service =
          (PyResult.ok (PyVal.str s,
            "could not resolve service id " ++ pyStrip s ++ " to name"), levs) := by
        rw [hsvc]
        simp only [resolveServiceStage, hd, hlk]
        rfl
      have hlevs : svcCountE levs = 1 ∧ keysCountE levs = 0 := by
        have h := lookup_evs cfg env (pyStrip s)
        rw [hlk] at h
        simp only at h
        rw [h]
        exact ⟨rfl, rfl⟩
      refine ⟨hres, ?_⟩
      rcases hder : derive_pubkeys cfg env cfg.keyName cfg.keyring with ⟨pr, evs1⟩
      have hdk : svcCountE evs1 = 0 ∧ keysCountE evs1 = 1 := by
        have h := derive_svc_keys cfg env cfg.keyName cfg.keyring
        rw [hder] at h
        simpa using h
      cases pr with
      | exn =>
        rw [run_deriveCrash cfg env p _ _ levs evs1 htr hres hder]
        rw [svcCountE_append, keysCountE_append, hlevs.1, hlevs.2, hdk.1, hdk.2]
        omega
      | ok v =>
        rcases v with ⟨raw, b32, oe⟩
        cases oe with
        | some e =>
          rw [run_pubkeyErr cfg env p _ _ e raw b32 levs evs1 htr hres hder]
          rw [svcCountE_append, keysCountE_append, hlevs.1, hlevs.2, hdk.1, hdk.2]
          omega
        | none =>
          rw [run_decomp cfg env p _ _ raw b32 levs evs1 htr hres hder]
          have hbp := bondPhase_aux cfg env p (PyVal.str s)
            ("could not resolve service id " ++ pyStrip s ++ " to name") raw b32
          constructor
          · rw [svcCountE_append, svcCountE_append, hlevs.1, hdk.1, hbp.1]
          · rw [keysCountE_append, keysCountE_append, hlevs.2, hdk.2, hbp.2]
    · intro levs hlkc
      have hresc : resolveServiceStage cfg env p.service = (PyResult.exn, levs) := by
        rw [hsvc]
        simp only [resolveServiceStage, hd, hlkc]
        rfl
      exact run_resolveCrash cfg env p levs htr hresc
  · intro hd
    have hres : resolveServiceStage cfg env p.service = (PyResult.ok (PyVal.str s, ""), []) := by
      rw [hsvc]
      simp only [resolveServiceStage, hd]
      rfl
    refine ⟨hres, ?_⟩
    rcases hder : derive_pubkeys cfg env cfg.keyName cfg.keyring with ⟨pr, evs1⟩
    have hdk : svcCountE evs1 = 0 := by
      have h := derive_svc_keys cfg env cfg.keyName cfg.keyring
      rw [hder] at h
      simpa using h.1
    cases pr with
    | exn =>
      rw [run_deriveCrash cfg env p _ _ [] evs1 htr hres hder]
      rw [svcCountE_append, hdk]
      rfl
    | ok v =>
      rcases v with ⟨raw, b32, oe⟩
      cases oe with
      | some e =>
        rw [run_pubkeyErr cfg env p _ _ e raw b32 [] evs1 htr hres hder]
        rw [svcCountE_append, hdk]
        rfl
      | none =>
        rw [run_decomp cfg env p _ _ raw b32 [] evs1 htr hres hder]
        have hbp := bondPhase_aux cfg env p (PyVal.str s) "" raw b32
        rw [svcCountE_append, svcCountE_append, hdk, hbp.1]
        rfl

theorem beforeFirstMod_cons_lookup (c : List String) (t : List TraceEvent) :
    beforeFirstMod (TraceEvent.providerLookup c :: t) =
      TraceEvent.providerLookup c :: beforeFirstMod t := rfl

theorem beforeFirstMod_cons_bond (c : List String) (t : List TraceEvent) :
    beforeFirstMod (TraceEvent.bondSubmit c :: t) =
      TraceEvent.bondSubmit c :: beforeFirstMod t := rfl

theorem beforeFirstMod_cons_sleep (n : Nat) (t : List TraceEvent) :
    beforeFirstMod (TraceEvent.sleep n :: t) =
      TraceEvent.sleep n :: beforeFirstMod t := rfl

/-- The first mod-provider submission of the mod phase is always the base
command with the prefetched sequence flags inserted. -/
theorem modWhole_first_mod (cfg : AppConfig) (env : ChainEnv) (p : Payload)
    (rs note raw b32 : String) (bcm : Option (List String)) (bc : Int) (bo : String)
    (l : List String)
    (hbase : mod_cmd_base cfg p b32 (PyVal.str rs) = l.map PyVal.str) :
    ∃ rest, modSubmits (modWhole cfg env p (PyVal.str rs) note raw b32 bcm bc bo).2 =
      insertSeqS l (seqArgOf (seqFetchLoop cfg env b32 0 3).1) :: rest := by
  unfold modWhole
  rw [modSubmits_append, (fetch_trace cfg env b32 3 0).1, hbase]
  obtain ⟨rest, h1, _⟩ := msar_facts cfg env p (PyVal.str rs) note raw b32 bcm bc bo l
    (seqArgOf (seqFetchLoop cfg env b32 0 3).1) (seqFetchLoop cfg env b32 0 3).2.1
  rw [h1]
  exact ⟨rest, by simp⟩

/-- C6: the pre-submission sequence fetch issues at most 3 account queries
before the first mod submission; when every attempt yields no sequence,
the metadata transaction is still submitted and its command is exactly the
base command, with no sequence flags inserted. -/
theorem claim_C6 (cfg : AppConfig) (env : ChainEnv) (p : Payload)
    (rs note raw b32 : String) (evs0 evs1 : List TraceEvent)
    (htr : truthy p.service = true)
    (hres : resolveServiceStage cfg env p.service = (PyResult.ok (PyVal.str rs, note), evs0))
    (hder : derive_pubkeys cfg env cfg.keyName cfg.keyring =
      (PyResult.ok (raw, b32, none), evs1))
    (hsu : StrField p.sentinel_uri) (hsr : StrField p.subscription_rates)
    (hpr : StrField p.pay_as_you_go_rates)
    (hpath : env.providerLookup.code = 0 ∨ env.bondTx.code = 0) :
    acctCountE (beforeFirstMod (bond_and_mod_provider cfg env p).2) ≤ 3 ∧
    ((∀ j, j < 3 → fetchSeqOnce env j = none) →
      ∃ base rest,
        toCmd? (mod_cmd_base cfg p b32 (PyVal.str rs)) = some base ∧
        modSubmits (bond_and_mod_provider cfg env p).2 = base :: rest) := by
  have hq0 : quiet evs0 = true := by
    have h := quiet_resolve cfg env p.service
    rw [hres] at h
    simpa using h
  have hq1 : quiet evs1 = true := by
    have h := quiet_derive cfg env cfg.keyName cfg.keyring
    rw [hder] at h
    simpa using h
  rcases sentinelUriVal_str cfg p hsu with ⟨u, hu⟩
  rcases subRatesVal_str p hsr with ⟨su, hsu2⟩
  rcases payRatesVal_str p hpr with ⟨pa, hpa⟩
  have hbase := mod_cmd_base_str cfg p b32 rs u su pa hu hsu2 hpa
  rw [run_decomp cfg env p (PyVal.str rs) note raw b32 evs0 evs1 htr hres hder]
  have hseq : (∀ j, j < 3 → fetchSeqOnce env j = none) →
      seqArgOf (seqFetchLoop cfg env b32 0 3).1 = [] := by
    intro hf
    rw [fetch_all_fail cfg env b32 3 0 (fun j hj => by simpa using hf j hj)]
    rfl
  rcases hpath with hlk | hbc
  · rw [bondPhase_skip cfg env p rs note raw b32 hlk]
    obtain ⟨b2, r2, hb1, hb2, hb3, hb4, hb5, hb6, hb7⟩ := modWhole_facts cfg env p rs note
      raw b32 none 0 "skipped: provider already exists" hsu hsr hpr
    constructor
    · simp only [List.append_assoc, beforeFirstMod_append (noMod_of_quiet hq0),
        beforeFirstMod_append (noMod_of_quiet hq1), beforeFirstMod_cons_lookup,
        acctCountE_append]
      rw [quiet_acct hq0, quiet_acct hq1,
        acctCountE_cons_skip (TraceEvent.providerLookup (providerLookupCmdS cfg b32 rs)) _ rfl]
      omega
    · intro hf
      obtain ⟨rest, hfm⟩ := modWhole_first_mod cfg env p rs note raw b32 none 0
        "skipped: provider already exists" _ hbase
      refine ⟨modBaseS cfg p b32 rs u su pa, rest, by rw [hbase, toCmd?_map_str], ?_⟩
      simp only [List.append_assoc, modSubmits_append, modSubmits_cons_lookup,
        quiet_modSubmits hq0, quiet_modSubmits hq1, List.nil_append]
      rw [hfm, hseq hf, insertSeqS_nil]
  · by_cases hlk2 : env.providerLookup.code = 0
    · rw [bondPhase_skip cfg env p rs note raw b32 hlk2]
      constructor
      · simp only [List.append_assoc, beforeFirstMod_append (noMod_of_quiet hq0),
          beforeFirstMod_append (noMod_of_quiet hq1), beforeFirstMod_cons_lookup,
          acctCountE_append]
        rw [quiet_acct hq0, quiet_acct hq1,
          acctCountE_cons_skip (TraceEvent.providerLookup (providerLookupCmdS cfg b32 rs)) _ rfl]
        obtain ⟨b2, r2, hb1, hb2, hb3, hb4, hb5, hb6, hb7⟩ := modWhole_facts cfg env p rs note
          raw b32 none 0 "skipped: provider already exists" hsu hsr hpr
        omega
      · intro hf
        obtain ⟨rest, hfm⟩ := modWhole_first_mod cfg env p rs note raw b32 none 0
          "skipped: provider already exists" _ hbase
        refine ⟨modBaseS cfg p b32 rs u su pa, rest, by rw [hbase, toCmd?_map_str], ?_⟩
        simp only [List.append_assoc, modSubmits_append, modSubmits_cons_lookup,
          quiet_modSubmits hq0, quiet_modSubmits hq1, List.nil_append]
        rw [hfm, hseq hf, insertSeqS_nil]
    · rw [bondPhase_noskip cfg env p rs note raw b32 hlk2,
        bondSubmitPhase_ok cfg env p rs note raw b32 hbc]
      constructor
      · simp only [List.append_assoc, beforeFirstMod_append (noMod_of_quiet hq0),
          beforeFirstMod_append (noMod_of_quiet hq1), beforeFirstMod_cons_lookup,
          beforeFirstMod_cons_bond, beforeFirstMod_cons_sleep, acctCountE_append]
        rw [quiet_acct hq0, quiet_acct hq1,
          acctCountE_cons_skip (TraceEvent.providerLookup (providerLookupCmdS cfg b32 rs)) _ rfl,
          acctCountE_cons_skip (TraceEvent.bondSubmit (bondCmdS cfg p b32 rs)) _ rfl,
          acctCountE_cons_skip (TraceEvent.sleep 2) _ rfl]
        obtain ⟨b2, r2, hb1, hb2, hb3, hb4, hb5, hb6, hb7⟩ := modWhole_facts cfg env p rs note
          raw b32 (some (bondCmdS cfg p b32 rs)) env.bondTx.code env.bondTx.out hsu hsr hpr
        omega
      · intro hf
        obtain ⟨rest, hfm⟩ := modWhole_first_mod cfg env p rs note raw b32
          (some (bondCmdS cfg p b32 rs)) env.bondTx.code env.bondTx.out _ hbase
        refine ⟨modBaseS cfg p b32 rs u su pa, rest, by rw [hbase, toCmd?_map_str], ?_⟩
        simp only [List.append_assoc, modSubmits_append, modSubmits_cons_lookup,
          modSubmits_cons_bond, modSubmits_cons_sleep, quiet_modSubmits hq0,
          quiet_modSubmits hq1, List.nil_append]
        rw [hfm, hseq hf, insertSeqS_nil]

/-- C7: a non-zero exit of the bond transaction makes the whole operation
terminal with HTTP 500, with exactly one bond submission and no metadata
submission. -/
theorem claim_C7 (cfg : AppConfig) (env : ChainEnv) (p : Payload)
    (rs note raw b32 : String) (evs0 evs1 : List TraceEvent)
    (htr : truthy p.service = true)
    (hres : resolveServiceStage cfg env p.service = (PyResult.ok (PyVal.str rs, note), evs0))
    (hder : derive_pubkeys cfg env cfg.keyName cfg.keyring =
      (PyResult.ok (raw, b32, none), evs1))
    (hlk : env.providerLookup.code ≠ 0) (hb : env.bondTx.code ≠ 0) :
    (bond_and_mod_provider cfg env p).1 =
      BMResult.bondFailed env.bondTx.out (bondCmdS cfg p b32 rs) p.service (PyVal.str rs)
        note (bondVal cfg p) cfg.keyring cfg.feesDefault raw b32 ∧
    statusCode (bond_and_mod_provider cfg env p).1 = 500 ∧
    bondSubmits (bond_and_mod_provider cfg env p).2 = [bondCmdS cfg p b32 rs] ∧
    modSubmits (bond_and_mod_provider cfg env p).2 = [] := by
  have hq0 : quiet evs0 = true := by
    have h := quiet_resolve cfg env p.service
    rw [hres] at h
    simpa using h
  have hq1 : quiet evs1 = true := by
    have h := quiet_derive cfg env cfg.keyName cfg.keyring
    rw [hder] at h
    simpa using h
  rw [run_decomp cfg env p (PyVal.str rs) note raw b32 evs0 evs1 htr hres hder,
    bondPhase_noskip cfg env p rs note raw b32 hlk,
    bondSubmitPhase_fail cfg env p rs note raw b32 hb]
  refine ⟨rfl, rfl, ?_, ?_⟩
  · simp only [List.append_assoc, bondSubmits_append, bondSubmits_cons_lookup,
      quiet_bondSubmits hq0, quiet_bondSubmits hq1, List.nil_append]
    rfl
  · simp only [List.append_assoc, modSubmits_append, modSubmits_cons_lookup,
      quiet_modSubmits hq0, quiet_modSubmits hq1, List.nil_append]
    rfl

/-- The mod phase when the first submission carries no mismatch marker and
exits non-zero: the terminal mod-failure response with the full inputs
context. -/
theorem modWhole_nomismatch_fail (cfg : AppConfig) (env : ChainEnv) (p : Payload)
    (rs note raw b32 : String) (bcm : Option (List String)) (bc : Int) (bo : String)
    (hsu : StrField p.sentinel_uri) (hsr : StrField p.subscription_rates)
    (hpr : StrField p.pay_as_you_go_rates)
    (hm : strContains (env.modTx 0).out "account sequence mismatch" = false)
    (hc : (env.modTx 0).code ≠ 0) :
    ∃ c, (modWhole cfg env p (PyVal.str rs) note raw b32 bcm bc bo).1 =
      BMResult.modFailed (env.modTx 0).out c (theInputs cfg p (PyVal.str rs)) raw b32 bc bo := by
  rcases sentinelUriVal_str cfg p hsu with ⟨u, hu⟩
  rcases subRatesVal_str p hsr with ⟨su, hsu2⟩
  rcases payRatesVal_str p hpr with ⟨pa, hpa⟩
  have hbase := mod_cmd_base_str cfg p b32 rs u su pa hu hsu2 hpa
  refine ⟨insertSeqS (modBaseS cfg p b32 rs u su pa)
    (seqArgOf (seqFetchLoop cfg env b32 0 3).1), ?_⟩
  unfold modWhole
  rw [hbase, msar_no_mismatch cfg env p (PyVal.str rs) note raw b32 bcm bc bo
    (modBaseS cfg p b32 rs u su pa) (seqArgOf (seqFetchLoop cfg env b32 0 3).1)
    (seqFetchLoop cfg env b32 0 3).2.1 hm]
  simp only
  rw [finalizeMod_fail cfg p (PyVal.str rs) note raw b32 bcm bc bo _ _ _ hc]

/-- C8 (amended): the bond-failure and metadata-failure responses carry the
accumulated context — resolved identity, the original and resolved
service, the caller-supplied inputs and the failing command's raw output —
while the identity-resolution failure response carries the identity fields
and diagnostic text but neither the resolved service nor the caller
inputs. -/
theorem claim_C8 (cfg : AppConfig) (env : ChainEnv) (p : Payload) :
    (∀ rs note raw b32 evs0 evs1,
      truthy p.service = true →
      resolveServiceStage cfg env p.service = (PyResult.ok (PyVal.str rs, note), evs0) →
      derive_pubkeys cfg env cfg.keyName cfg.keyring = (PyResult.ok (raw, b32, none), evs1) →
      env.providerLookup.code ≠ 0 → env.bondTx.code ≠ 0 →
      (bond_and_mod_provider cfg env p).1 =
        BMResult.bondFailed env.bondTx.out (bondCmdS cfg p b32 rs) p.service (PyVal.str rs)
          note (bondVal cfg p) cfg.keyring cfg.feesDefault raw b32 ∧
      hasResolvedService (bond_and_mod_provider cfg env p).1 = true) ∧
    (∀ rs note raw b32 evs0 evs1,
      truthy p.service = true →
      resolveServiceStage cfg env p.service = (PyResult.ok (PyVal.str rs, note), evs0) →
      derive_pubkeys cfg env cfg.keyName cfg.keyring = (PyResult.ok (raw, b32, none), evs1) →
      StrField p.sentinel_uri → StrField p.subscription_rates →
      StrField p.pay_as_you_go_rates →
      (env.providerLookup.code = 0 ∨ env.bondTx.code = 0) →
      strContains (env.modTx 0).out "account sequence mismatch" = false →
      (env.modTx 0).code ≠ 0 →
      ∃ c bc bo, (bond_and_mod_provider cfg env p).1 =
        BMResult.modFailed (env.modTx 0).out c (theInputs cfg p (PyVal.str rs)) raw b32 bc bo) ∧
    (∀ resolved note raw b32 e evs0 evs1,
      truthy p.service = true →
      resolveServiceStage cfg env p.service = (PyResult.ok (resolved, note), evs0) →
      derive_pubkeys cfg env cfg.keyName cfg.keyring =
        (PyResult.ok (raw, b32, some e), evs1) →
      (bond_and_mod_provider cfg env p).1 = BMResult.pubkeyError e raw b32 ∧
      resultDetail (bond_and_mod_provider cfg env p).1 = some e ∧
      hasResolvedService (bond_and_mod_provider cfg env p).1 = false) := by
  refine ⟨?_, ?_, ?_⟩
  · intro rs note raw b32 evs0 evs1 htr hres hder hlk hb
    have h := claim_C7 cfg env p rs note raw b32 evs0 evs1 htr hres hder hlk hb
    exact ⟨h.1, by rw [h.1]; rfl⟩
  · intro rs note raw b32 evs0 evs1 htr hres hder hsu hsr hpr hpath hm hc
    rw [run_decomp cfg env p (PyVal.str rs) note raw b32 evs0 evs1 htr hres hder]
    rcases hpath with hlk | hbc
    · rw [bondPhase_skip cfg env p rs note raw b32 hlk]
      obtain ⟨c, hcf⟩ := modWhole_nomismatch_fail cfg env p rs note raw b32 none 0
        "skipped: provider already exists" hsu hsr hpr hm hc
      exact ⟨c, 0, "skipped: provider already exists", hcf⟩
    · by_cases hlk2 : env.providerLookup.code = 0
      · rw [bondPhase_skip cfg env p rs note raw b32 hlk2]
        obtain ⟨c, hcf⟩ := modWhole_nomismatch_fail cfg env p rs note raw b32 none 0
          "skipped: provider already exists" hsu hsr hpr hm hc
        exact ⟨c, 0, "skipped: provider already exists", hcf⟩
      · rw [bondPhase_noskip cfg env p rs note raw b32 hlk2,
          bondSubmitPhase_ok cfg env p rs note raw b32 hbc]
        obtain ⟨c, hcf⟩ := modWhole_nomismatch_fail cfg env p rs note raw b32
          (some (bondCmdS cfg p b32 rs)) env.bondTx.code env.bondTx.out hsu hsr hpr hm hc
        exact ⟨c, env.bondTx.code, env.bondTx.out, hcf⟩
  · intro resolved note raw b32 e evs0 evs1 htr hres hder
    rw [run_pubkeyErr cfg env p resolved note e raw b32 evs0 evs1 htr hres hder]
    exact ⟨rfl, rfl, rfl⟩

/-- C9: a request whose service field is missing or falsy is rejected
before any external command runs; otherwise every nonempty string value
the caller supplies for the metadata fields appears verbatim in the first
submitted mod-provider transaction command. -/
theorem claim_C9 (cfg : AppConfig) (env : ChainEnv) (p : Payload) :
    (truthy p.service = false →
      bond_and_mod_provider cfg env p = (BMResult.missingService, [])) ∧
    (∀ rs note raw b32 evs0 evs1 u nn st mind maxd sr pr sd,
      truthy p.service = true →
      resolveServiceStage cfg env p.service = (PyResult.ok (PyVal.str rs, note), evs0) →
      derive_pubkeys cfg env cfg.keyName cfg.keyring = (PyResult.ok (raw, b32, none), evs1) →
      (env.providerLookup.code = 0 ∨ env.bondTx.code = 0) →
      p.sentinel_uri = PyVal.str u → u ≠ "" →
      p.metadata_nonce = PyVal.str nn → nn ≠ "" →
      p.status = PyVal.str st → st ≠ "" →
      p.min_contract_dur = PyVal.str mind → mind ≠ "" →
      p.max_contract_dur = PyVal.str maxd → maxd ≠ "" →
      p.subscription_rates = PyVal.str sr → sr ≠ "" →
      p.pay_as_you_go_rates = PyVal.str pr → pr ≠ "" →
      p.settlement_dur = PyVal.str sd → sd ≠ "" →
      ∃ c1 rest, modSubmits (bond_and_mod_provider cfg env p).2 = c1 :: rest ∧
        u ∈ c1 ∧ nn ∈ c1 ∧ st ∈ c1 ∧ mind ∈ c1 ∧ maxd ∈ c1 ∧ sr ∈ c1 ∧ pr ∈ c1 ∧
        sd ∈ c1) := by
  constructor
  · intro htr
    exact run_missing cfg env p htr
  · intro rs note raw b32 evs0 evs1 u nn st mind maxd sr pr sd htr hres hder hpath
      huv hune hnv hnne hsv hsne hminv hminne hmaxv hmaxne hsrv hsrne hprv hprne hsdv hsdne
    have hq0 : quiet evs0 = true := by
      have h := quiet_resolve cfg env p.service
      rw [hres] at h
      simpa using h
    have hq1 : quiet evs1 = true := by
      have h := quiet_derive cfg env cfg.keyName cfg.keyring
      rw [hder] at h
      simpa using h
    have huri : sentinelUriVal cfg p = PyVal.str u := by
      rw [sentinelUriVal, huv]
      simp [pyOr, truthy, hune]
    have hnn : nonceVal cfg p = nn := by
      rw [nonceVal, hnv]
      simp [pyOr, truthy, hnne, pyStr]
    have hst : statusVal p = st := by
      rw [statusVal, hsv]
      simp [pyOr, truthy, hsne, pyStr]
    have hmin : minDurVal p = mind := by
      rw [minDurVal, hminv]
      simp [pyOr, truthy, hminne, pyStr]
    have hmax : maxDurVal p = maxd := by
      rw [maxDurVal, hmaxv]
      simp [pyOr, truthy, hmaxne, pyStr]
    have hsr2 : subRatesVal p = PyVal.str sr := by
      rw [subRatesVal, hsrv]
      simp [pyOr, truthy, hsrne]
    have hpr2 : payRatesVal p = PyVal.str pr := by
      rw [payRatesVal, hprv]
      simp [pyOr, truthy, hprne]
    have hsd : settleVal p = sd := by
      rw [settleVal, hsdv]
      simp [pyOr, truthy, hsdne, pyStr]
    have hbase := mod_cmd_base_str cfg p b32 rs u sr pr huri hsr2 hpr2
    have hm1 : u ∈ modBaseS cfg p b32 rs u sr pr := by simp [modBaseS]
    have hm2 : nn ∈ modBaseS cfg p b32 rs u sr pr := by
      rw [← hnn]
      simp [modBaseS]
    have hm3 : st ∈ modBaseS cfg p b32 rs u sr pr := by
      rw [← hst]
      simp [modBaseS]
    have hm4 : mind ∈ modBaseS cfg p b32 rs u sr pr := by
      rw [← hmin]
      simp [modBaseS]
    have hm5 : maxd ∈ modBaseS cfg p b32 rs u sr pr := by
      rw [← hmax]
      simp [modBaseS]
    have hm6 : sr ∈ modBaseS cfg p b32 rs u sr pr := by simp [modBaseS]
    have hm7 : pr ∈ modBaseS cfg p b32 rs u sr pr := by simp [modBaseS]
    have hm8 : sd ∈ modBaseS cfg p b32 rs u sr pr := by
      rw [← hsd]
      simp [modBaseS]
    rw [run_decomp cfg env p (PyVal.str rs) note raw b32 evs0 evs1 htr hres hder]
    rcases hpath with hlk | hbc
    · rw [bondPhase_skip cfg env p rs note raw b32 hlk]
      obtain ⟨rest, hfm⟩ := modWhole_first_mod cfg env p rs note raw b32 none 0
        "skipped: provider already exists" _ hbase
      refine ⟨insertSeqS (modBaseS cfg p b32 rs u sr pr)
        (seqArgOf (seqFetchLoop cfg env b32 0 3).1), rest, ?_,
        mem_insertSeqS _ hm1, mem_insertSeqS _ hm2, mem_insertSeqS _ hm3,
        mem_insertSeqS _ hm4, mem_insertSeqS _ hm5, mem_insertSeqS _ hm6,
        mem_insertSeqS _ hm7, mem_insertSeqS _ hm8⟩
      simp only [List.append_assoc, modSubmits_append, modSubmits_cons_lookup,
        quiet_modSubmits hq0, quiet_modSubmits hq1, List.nil_append]
      exact hfm
    · by_cases hlk2 : env.providerLookup.code = 0
      · rw [bondPhase_skip cfg env p rs note raw b32 hlk2]
        obtain ⟨rest, hfm⟩ := modWhole_first_mod cfg env p rs note raw b32 none 0
          "skipped: provider already exists" _ hbase
        refine ⟨insertSeqS (modBaseS cfg p b32 rs u sr pr)
          (seqArgOf (seqFetchLoop cfg env b32 0 3).1), rest, ?_,
          mem_insertSeqS _ hm1, mem_insertSeqS _ hm2, mem_insertSeqS _ hm3,
          mem_insertSeqS _ hm4, mem_insertSeqS _ hm5, mem_insertSeqS _ hm6,
          mem_insertSeqS _ hm7, mem_insertSeqS _ hm8⟩
        simp only [List.append_assoc, modSubmits_append, modSubmits_cons_lookup,
          quiet_modSubmits hq0, quiet_modSubmits hq1, List.nil_append]
        exact hfm
      · rw [bondPhase_noskip cfg env p rs note raw b32 hlk2,
          bondSubmitPhase_ok cfg env p rs note raw b32 hbc]
        obtain ⟨rest, hfm⟩ := modWhole_first_mod cfg env p rs note raw b32
          (some (bondCmdS cfg p b32 rs)) env.bondTx.code env.bondTx.out _ hbase
        refine ⟨insertSeqS (modBaseS cfg p b32 rs u sr pr)
          (seqArgOf (seqFetchLoop cfg env b32 0 3).1), rest, ?_,
          mem_insertSeqS _ hm1, mem_insertSeqS _ hm2, mem_insertSeqS _ hm3,
          mem_insertSeqS _ hm4, mem_insertSeqS _ hm5, mem_insertSeqS _ hm6,
          mem_insertSeqS _ hm7, mem_insertSeqS _ hm8⟩
        simp only [List.append_assoc, modSubmits_append, modSubmits_cons_lookup,
          modSubmits_cons_bond, modSubmits_cons_sleep, quiet_modSubmits hq0,
          quiet_modSubmits hq1, List.nil_append]
        exact hfm

/-- C10: the success response always reports a zero metadata exit code and
a zero bond exit code (real or synthetic), and any 200 response is such a
success; a non-zero final metadata exit code therefore never produces the
success response. -/
theorem claim_C10 (cfg : AppConfig) (env : ChainEnv) (p : Payload) :
    (∀ inputs note raw b32 bcm mcm bc bo mc mo,
      (bond_and_mod_provider cfg env p).1 =
        BMResult.success inputs note raw b32 bcm mcm bc bo mc mo →
      bc = 0 ∧ mc = 0) ∧
    (statusCode (bond_and_mod_provider cfg env p).1 = 200 →
      ∃ inputs note raw b32 bcm mcm bo mo,
        (bond_and_mod_provider cfg env p).1 =
          BMResult.success inputs note raw b32 bcm mcm 0 bo 0 mo) := by
  constructor
  · intro inputs note raw b32 bcm mcm bc bo mc mo h
    exact run_successCodes cfg env p bc mc (by rw [h]; rfl)
  · intro h200
    cases hmain : (bond_and_mod_provider cfg env p).1 with
    | missingService =>
      rw [hmain] at h200
      exact absurd h200 (by simp [statusCode])
    | internalError =>
      rw [hmain] at h200
      exact absurd h200 (by simp [statusCode])
    | pubkeyError e r b =>
      rw [hmain] at h200
      exact absurd h200 (by simp [statusCode])
    | bondFailed d c sv rv n bd kb fe ra bb =>
      rw [hmain] at h200
      exact absurd h200 (by simp [statusCode])
    | modFailed d c i ra bb bcx box =>
      rw [hmain] at h200
      exact absurd h200 (by simp [statusCode])
    | success i n ra bb bcm mcm bc box mc mo =>
      have hc := run_successCodes cfg env p bc mc (by rw [hmain]; rfl)
      exact ⟨i, n, ra, bb, bcm, mcm, box, mo, by rw [hc.1, hc.2]⟩

/-! ### Concrete fixtures for witnesses and counterexamples -/

/-- A fixed module configuration. -/
def wcfg : AppConfig :=
  ⟨"/root/.arkeod", "provider", "test", "tcp://node:26657", "",
   "http://sent/metadata.json", "1", "1", "200uarkeo"⟩

/-- A request for the non-numeric service name `"btc"`. -/
def wp : Payload :=
  ⟨PyVal.str "btc", PyVal.null, PyVal.null, PyVal.null, PyVal.null, PyVal.null,
   PyVal.null, PyVal.null, PyVal.null, PyVal.null⟩

/-- A request for the numeric service id `"7"`. -/
def wpC5 : Payload :=
  ⟨PyVal.str "7", PyVal.null, PyVal.null, PyVal.null, PyVal.null, PyVal.null,
   PyVal.null, PyVal.null, PyVal.null, PyVal.null⟩

/-- A request supplying every metadata field as a nonempty string. -/
def wpC9 : Payload :=
  ⟨PyVal.str "btc", PyVal.null, PyVal.str "http://u", PyVal.str "9", PyVal.str "1",
   PyVal.str "5", PyVal.str "600", PyVal.str "10uark", PyVal.str "20uark", PyVal.str "99"⟩

/-- Successful key lookup output. -/
def wkeysOut : ExecOut := ⟨0, "keyjson", some (PyVal.obj [("key", PyVal.str "abc")])⟩

/-- Successful pubkey conversion output. -/
def wb32Out : ExecOut := ⟨0, "Bech32 Acc: warkeopub\n", none⟩

/-- Successful account query carrying sequence 5. -/
def wacctOut : ExecOut :=
  ⟨0, "acct", some (PyVal.obj [("account",
    PyVal.obj [("value", PyVal.obj [("sequence", PyVal.str "5")])])])⟩

/-- Provider already registered; every transaction succeeds. -/
def wenvC1 : ChainEnv :=
  ⟨wkeysOut, wb32Out, ⟨1, "svc down", none⟩, ⟨0, "found", none⟩, ⟨0, "bond ok", none⟩,
   fun _ => wacctOut, fun _ => ⟨0, "mod ok", none⟩⟩

/-- First mod submission reports a mismatch with an extractable expected
sequence; the resubmission succeeds. -/
def wenvC2 : ChainEnv :=
  ⟨wkeysOut, wb32Out, ⟨1, "svc down", none⟩, ⟨0, "found", none⟩, ⟨0, "bond ok", none⟩,
   fun _ => wacctOut,
   fun k => if k = 0 then ⟨1, "account sequence mismatch, expected 6: x", none⟩
     else ⟨0, "mod ok 2", none⟩⟩

/-- Mismatch without an extractable sequence; account queries down; the
resubmission fails too. -/
def wenvC3 : ChainEnv :=
  ⟨wkeysOut, wb32Out, ⟨1, "svc down", none⟩, ⟨0, "found", none⟩, ⟨0, "bond ok", none⟩,
   fun _ => ⟨1, "down", none⟩,
   fun k => if k = 0 then ⟨1, "account sequence mismatch zz", none⟩
     else ⟨5, "still bad", none⟩⟩

/-- Key lookup fails with a non-zero exit. -/
def envKeyFail : ChainEnv :=
  ⟨⟨1, "boom", none⟩, wb32Out, ⟨1, "svc down", none⟩, ⟨0, "found", none⟩,
   ⟨0, "bond ok", none⟩, fun _ => wacctOut, fun _ => ⟨0, "mod ok", none⟩⟩

/-- Key lookup exits 0 but its output parses to a JSON array (no `"key"`
field at all). -/
def cenvC4 : ChainEnv :=
  ⟨⟨0, "[1]", some (PyVal.arr [PyVal.num 1])⟩, wb32Out, ⟨1, "svc down", none⟩,
   ⟨0, "found", none⟩, ⟨0, "bond ok", none⟩, fun _ => wacctOut,
   fun _ => ⟨0, "mod ok", none⟩⟩

/-- Catalog query exits 0 with output parsing to a bare JSON string. -/
def cenvC5 : ChainEnv :=
  ⟨wkeysOut, wb32Out, ⟨0, "oops", some (PyVal.str "oops")⟩, ⟨0, "found", none⟩,
   ⟨0, "bond ok", none⟩, fun _ => wacctOut, fun _ => ⟨0, "mod ok", none⟩⟩

/-- Account queries always fail; everything else succeeds. -/
def wenvC6 : ChainEnv :=
  ⟨wkeysOut, wb32Out, ⟨1, "svc down", none⟩, ⟨0, "found", none⟩, ⟨0, "bond ok", none⟩,
   fun _ => ⟨1, "down", none⟩, fun _ => ⟨0, "mod ok", none⟩⟩

/-- No existing registration and a failing bond transaction. -/
def wenvC7 : ChainEnv :=
  ⟨wkeysOut, wb32Out, ⟨1, "svc down", none⟩, ⟨1, "nf", none⟩, ⟨1, "bond boom", none⟩,
   fun _ => wacctOut, fun _ => ⟨0, "mod ok", none⟩⟩

/-- Registered provider; the mod transaction fails without a mismatch
marker. -/
def wenvC8 : ChainEnv :=
  ⟨wkeysOut, wb32Out, ⟨1, "svc down", none⟩, ⟨0, "found", none⟩, ⟨0, "bond ok", none⟩,
   fun _ => wacctOut, fun _ => ⟨3, "boom out", none⟩⟩

/-- Witness for C1 at a concrete registered provider. -/
theorem claim_C1_witness :
    (wenvC1.providerLookup.code = 0 →
      bondSubmits (bond_and_mod_provider wcfg wenvC1 wp).2 = [] ∧
      modSubmits (bond_and_mod_provider wcfg wenvC1 wp).2 ≠ [] ∧
      bondReport (bond_and_mod_provider wcfg wenvC1 wp).1 =
        some (0, "skipped: provider already exists")) ∧
    (wenvC1.providerLookup.code ≠ 0 →
      ∃ bc, bondSubmits (bond_and_mod_provider wcfg wenvC1 wp).2 = [bc]) :=
  claim_C1 wcfg wenvC1 wp "btc" "" "abc" "warkeopub" []
    [TraceEvent.keysShow (pubkeyCmd wcfg "provider" "test"),
     TraceEvent.pubkeyRawCall (bech32Cmd "abc")] (by rfl) (by rfl) (by rfl)
    (Or.inl rfl) (Or.inl rfl) (Or.inl rfl)

/-- Witness for C2 at a concrete mismatch with `expected 6`. -/
theorem claim_C2_witness :
    ∃ c1 c2,
      modSubmits (bond_and_mod_provider wcfg wenvC2 wp).2 = [c1, c2] ∧
      (∃ pre post, c2 = pre ++ ["--sequence", "6"] ++ post) ∧
      acctCountE (afterFirstMod (bond_and_mod_provider wcfg wenvC2 wp).2) = 0 :=
  claim_C2 wcfg wenvC2 wp "btc" "" "abc" "warkeopub" []
    [TraceEvent.keysShow (pubkeyCmd wcfg "provider" "test"),
     TraceEvent.pubkeyRawCall (bech32Cmd "abc")] "6" (by rfl) (by rfl) (by rfl)
    (Or.inl rfl) (Or.inl rfl) (Or.inl rfl) (Or.inl rfl) (by rfl) (by rfl)

/-- Witness for C3 at a concrete double failure. -/
theorem claim_C3_witness :
    (modSubmits (bond_and_mod_provider wcfg wenvC3 wp).2).length = 2 ∧
    (searchExpected (wenvC3.modTx 0).out = none →
      acctCountE (afterFirstMod (bond_and_mod_provider wcfg wenvC3 wp).2) ≤ 2) ∧
    ((wenvC3.modTx 1).code ≠ 0 →
      statusCode (bond_and_mod_provider wcfg wenvC3 wp).1 = 500 ∧
      resultDetail (bond_and_mod_provider wcfg wenvC3 wp).1 =
        some (wenvC3.modTx 1).out) :=
  claim_C3 wcfg wenvC3 wp "btc" "" "abc" "warkeopub" []
    [TraceEvent.keysShow (pubkeyCmd wcfg "provider" "test"),
     TraceEvent.pubkeyRawCall (bech32Cmd "abc")] (by rfl) (by rfl) (by rfl)
    (Or.inl rfl) (Or.inl rfl) (Or.inl rfl) (Or.inl rfl) (by rfl)

/-- Witness for C4 at a concrete failing key lookup. -/
theorem claim_C4_witness :
    bond_and_mod_provider wcfg envKeyFail wp =
      (BMResult.pubkeyError "failed to fetch raw pubkey: boom" "" "",
       [] ++ [TraceEvent.keysShow (pubkeyCmd wcfg "provider" "test")]) ∧
    statusCode (bond_and_mod_provider wcfg envKeyFail wp).1 = 500 ∧
    resultDetail (bond_and_mod_provider wcfg envKeyFail wp).1 =
      some "failed to fetch raw pubkey: boom" ∧
    bondSubmits (bond_and_mod_provider wcfg envKeyFail wp).2 = [] ∧
    modSubmits (bond_and_mod_provider wcfg envKeyFail wp).2 = [] :=
  (claim_C4 wcfg envKeyFail wp (PyVal.str "btc") "" [] (by rfl) (by rfl)).1
    "" "" "failed to fetch raw pubkey: boom"
    [TraceEvent.keysShow (pubkeyCmd wcfg "provider" "test")] (by rfl)

/-- Counterexample for C4 as stated: the key lookup exits 0 with output
`[1]` — valid JSON with no non-empty `"key"` field — yet the operation
answers with a bare 500 carrying no diagnostic text. -/
theorem claim_C4_counterexample :
    cenvC4.keysShow.code = 0 ∧
    cenvC4.keysShow.js = some (PyVal.arr [PyVal.num 1]) ∧
    (bond_and_mod_provider wcfg cenvC4 wp).1 = BMResult.internalError ∧
    resultDetail (bond_and_mod_provider wcfg cenvC4 wp).1 = none ∧
    bondSubmits (bond_and_mod_provider wcfg cenvC4 wp).2 = [] ∧
    modSubmits (bond_and_mod_provider wcfg cenvC4 wp).2 = [] :=
  ⟨rfl, rfl, rfl, rfl, rfl, rfl⟩

/-- Witness for C5 at a concrete failing catalog query for id 7. -/
theorem claim_C5_witness :
    resolveServiceStage wcfg wenvC1 wpC5.service =
      (PyResult.ok (PyVal.str "7",
        "could not resolve service id " ++ pyStrip "7" ++ " to name"),
       [TraceEvent.servicesQuery (svcAllCmd wcfg)]) ∧
    svcCountE (bond_and_mod_provider wcfg wenvC1 wpC5).2 ≥ 1 ∧
    keysCountE (bond_and_mod_provider wcfg wenvC1 wpC5).2 ≥ 1 :=
  ((claim_C5 wcfg wenvC1 wpC5 "7" rfl (by decide)).1 (by rfl)).1
    [TraceEvent.servicesQuery (svcAllCmd wcfg)] (by rfl)

/-- Counterexample for C5 as stated: the catalog query exits 0 with output
parsing to the JSON string `"oops"` — so no entry matches id 7 — yet the
operation aborts with a bare 500 instead of soft-falling back with a
note. -/
theorem claim_C5_counterexample :
    cenvC5.allServices.code = 0 ∧
    cenvC5.allServices.js = some (PyVal.str "oops") ∧
    bond_and_mod_provider wcfg cenvC5 wpC5 =
      (BMResult.internalError, [TraceEvent.servicesQuery (svcAllCmd wcfg)]) ∧
    keysCountE (bond_and_mod_provider wcfg cenvC5 wpC5).2 = 0 ∧
    modSubmits (bond_and_mod_provider wcfg cenvC5 wpC5).2 = [] :=
  ⟨rfl, rfl, rfl, rfl, rfl⟩

/-- Witness for C6 at a concrete run whose account queries all fail. -/
theorem claim_C6_witness :
    acctCountE (beforeFirstMod (bond_and_mod_provider wcfg wenvC6 wp).2) ≤ 3 ∧
    ((∀ j, j < 3 → fetchSeqOnce wenvC6 j = none) →
      ∃ base rest,
        toCmd? (mod_cmd_base wcfg wp "warkeopub" (PyVal.str "btc")) = some base ∧
        modSubmits (bond_and_mod_provider wcfg wenvC6 wp).2 = base :: rest) :=
  claim_C6 wcfg wenvC6 wp "btc" "" "abc" "warkeopub" []
    [TraceEvent.keysShow (pubkeyCmd wcfg "provider" "test"),
     TraceEvent.pubkeyRawCall (bech32Cmd "abc")] (by rfl) (by rfl) (by rfl)
    (Or.inl rfl) (Or.inl rfl) (Or.inl rfl) (Or.inl rfl)

/-- Witness for C7 at a concrete failing bond submission. -/
theorem claim_C7_witness :
    (bond_and_mod_provider wcfg wenvC7 wp).1 =
      BMResult.bondFailed wenvC7.bondTx.out (bondCmdS wcfg wp "warkeopub" "btc")
        wp.service (PyVal.str "btc") "" (bondVal wcfg wp) wcfg.keyring
        wcfg.feesDefault "abc" "warkeopub" ∧
    statusCode (bond_and_mod_provider wcfg wenvC7 wp).1 = 500 ∧
    bondSubmits (bond_and_mod_provider wcfg wenvC7 wp).2 =
      [bondCmdS wcfg wp "warkeopub" "btc"] ∧
    modSubmits (bond_and_mod_provider wcfg wenvC7 wp).2 = [] :=
  claim_C7 wcfg wenvC7 wp "btc" "" "abc" "warkeopub" []
    [TraceEvent.keysShow (pubkeyCmd wcfg "provider" "test"),
     TraceEvent.pubkeyRawCall (bech32Cmd "abc")] (by rfl) (by rfl) (by rfl)
    (by decide) (by decide)

/-- Witness for C8 at a concrete non-mismatch mod failure. -/
theorem claim_C8_witness :
    ∃ c bc bo, (bond_and_mod_provider wcfg wenvC8 wp).1 =
      BMResult.modFailed (wenvC8.modTx 0).out c (theInputs wcfg wp (PyVal.str "btc"))
        "abc" "warkeopub" bc bo :=
  (claim_C8 wcfg wenvC8 wp).2.1 "btc" "" "abc" "warkeopub" []
    [TraceEvent.keysShow (pubkeyCmd wcfg "provider" "test"),
     TraceEvent.pubkeyRawCall (bech32Cmd "abc")] (by rfl) (by rfl) (by rfl)
    (Or.inl rfl) (Or.inl rfl) (Or.inl rfl) (Or.inl rfl) (by rfl) (by decide)

/-- Counterexample for C8 as stated: the identity-resolution failure
response is a terminal 500 that carries neither the resolved service nor
the caller-supplied inputs. -/
theorem claim_C8_counterexample :
    statusCode (bond_and_mod_provider wcfg envKeyFail wp).1 = 500 ∧
    hasResolvedService (bond_and_mod_provider wcfg envKeyFail wp).1 = false ∧
    (bond_and_mod_provider wcfg envKeyFail wp).1 =
      BMResult.pubkeyError "failed to fetch raw pubkey: boom" "" "" :=
  ⟨rfl, rfl, rfl⟩

/-- Witness for C9 at a concrete request supplying every metadata field. -/
theorem claim_C9_witness :
    ∃ c1 rest,
      modSubmits (bond_and_mod_provider wcfg wenvC1 wpC9).2 = c1 :: rest ∧
      "http://u" ∈ c1 ∧ "9" ∈ c1 ∧ "1" ∈ c1 ∧ "5" ∈ c1 ∧ "600" ∈ c1 ∧
      "10uark" ∈ c1 ∧ "20uark" ∈ c1 ∧ "99" ∈ c1 :=
  (claim_C9 wcfg wenvC1 wpC9).2 "btc" "" "abc" "warkeopub" []
    [TraceEvent.keysShow (pubkeyCmd wcfg "provider" "test"),
     TraceEvent.pubkeyRawCall (bech32Cmd "abc")]
    "http://u" "9" "1" "5" "600" "10uark" "20uark" "99"
    (by rfl) (by rfl) (by rfl) (Or.inl rfl)
    rfl (by decide) rfl (by decide) rfl (by decide) rfl (by decide)
    rfl (by decide) rfl (by decide) rfl (by decide) rfl (by decide)

/-- Witness for C10 at a concrete successful run. -/
theorem claim_C10_witness :
    ∃ inputs note raw b32 bcm mcm bo mo,
      (bond_and_mod_provider wcfg wenvC1 wp).1 =
        BMResult.success inputs note raw b32 bcm mcm 0 bo 0 mo :=
  (claim_C10 wcfg wenvC1 wp).2 (by rfl)
